import Mathlib

/-!
Verification development for the `rsadsbma` ADS-B beamforming receiver.

Shallow embedding conventions:
* Rust `u8`/`u16`/`u32`/`u64`/`usize` values are modelled as `Nat`; byte
  buffers (`&[u8]`, `Vec<u8>`) as `List Nat`; `i16` samples as `Int`.
* Rust `f32` computations are modelled over `ℚ` with exact arithmetic; where
  the source calls `cos`/`sin`, the embedded function takes the resulting
  rotation coefficients as parameters.
* `std::collections::HashMap` is modelled as an association list in which a
  fresh insertion is prepended, and lookup (`List.lookup`) returns the most
  recently inserted binding for a key, or as an update of a function
  `Nat → Option _` where no key iteration is required.
* `std::time::Instant` timestamps are modelled as `Nat` numbers of seconds;
  `(Instant::now() - t).as_secs()` becomes truncated subtraction `now - t`.
* Rust early `return` of errors is modelled with `Except`.
-/

namespace Rsadsbma

set_option maxRecDepth 10000

/-- Modelled from the spec: the module `constants` is not among the source
files; §6 of the spec fixes long message = 112 bits = 14 bytes and
short message = 56 bits = 7 bytes. -/
def MODES_LONG_MSG_BITS : Nat := 112

/-- Modelled from the spec: long message byte count (14). -/
def MODES_LONG_MSG_BYTES : Nat := 14

/-- Modelled from the spec: short message byte count (7). -/
def MODES_SHORT_MSG_BYTES : Nat := 7

/-- The 112-entry Mode-S CRC table from `crc.rs` (`MODES_CHECKSUM_TABLE`). -/
def MODES_CHECKSUM_TABLE : List Nat := [
  0x3935ea, 0x1c9af5, 0xf1b77e, 0x78dbbf, 0xc397db, 0x9e31e9, 0xb0e2f0, 0x587178,
  0x2c38bc, 0x161c5e, 0x0b0e2f, 0xfa7d13, 0x82c48d, 0xbe9842, 0x5f4c21, 0xd05c14,
  0x682e0a, 0x341705, 0xe5f186, 0x72f8c3, 0xc68665, 0x9cb936, 0x4e5c9b, 0xd8d449,
  0x939020, 0x49c810, 0x24e408, 0x127204, 0x093902, 0x049c81, 0xfdb444, 0x7eda22,
  0x3f6d11, 0xe04c8c, 0x702646, 0x381323, 0xe3f395, 0x8e03ce, 0x4701e7, 0xdc7af7,
  0x91c77f, 0xb719bb, 0xa476d9, 0xadc168, 0x56e0b4, 0x2b705a, 0x15b82d, 0xf52612,
  0x7a9309, 0xc2b380, 0x6159c0, 0x30ace0, 0x185670, 0x0c2b38, 0x06159c, 0x030ace,
  0x018567, 0xff38b7, 0x80665f, 0xbfc92b, 0xa01e91, 0xaff54c, 0x57faa6, 0x2bfd53,
  0xea04ad, 0x8af852, 0x457c29, 0xdd4410, 0x6ea208, 0x375104, 0x1ba882, 0x0dd441,
  0xf91024, 0x7c8812, 0x3e4409, 0xe0d800, 0x706c00, 0x383600, 0x1c1b00, 0x0e0d80,
  0x0706c0, 0x038360, 0x01c1b0, 0x00e0d8, 0x00706c, 0x003836, 0x001c1b, 0xfff409,
  0x000000, 0x000000, 0x000000, 0x000000, 0x000000, 0x000000, 0x000000, 0x000000,
  0x000000, 0x000000, 0x000000, 0x000000, 0x000000, 0x000000, 0x000000, 0x000000,
  0x000000, 0x000000, 0x000000, 0x000000, 0x000000, 0x000000, 0x000000, 0x000000]

/-- `crc.rs`: `modes_compute_crc`.  For each bit index `j` below
`bits - 24`, a set bit (MSB-first) XORs the table entry `offset + j` into
the accumulator; the result is masked to 24 bits. -/
def modes_compute_crc (msg : List Nat) : Nat :=
  let bits := msg.length * 8
  let offset := if bits = 112 then 0 else 112 - 56
  let crc := (List.range (bits - 24)).foldl (fun crc j =>
    if msg.getD (j / 8) 0 &&& (1 <<< (7 - j % 8)) ≠ 0 then
      crc ^^^ MODES_CHECKSUM_TABLE.getD (offset + j) 0
    else crc) 0
  crc &&& 0xffffff

/-- `crc.rs`: `modes_checksum` — the CRC XORed with the 24-bit remainder
stored in the last three message bytes. -/
def modes_checksum (msg : List Nat) : Nat :=
  let crc := modes_compute_crc msg
  let sz := msg.length
  let rem := (msg.getD (sz - 3) 0 <<< 16) ||| (msg.getD (sz - 2) 0 <<< 8) ||| msg.getD (sz - 1) 0
  (crc ^^^ rem) &&& 0xffffff

/-- `crc.rs`: body of the inner `for j in i+1..112` loop of
`modes_init_error_info`, acting on the pair (message, table).  The table is
the association-list model of the `HashMap` (newest binding first). -/
def innerStep (i : Nat) (st : List Nat × List (Nat × Nat)) (j : Nat) :
    List Nat × List (Nat × Nat) :=
  let bytepos1 := j >>> 3
  let mask1 := 1 <<< (7 - (j &&& 7))
  let msg := st.1.set bytepos1 (st.1.getD bytepos1 0 ^^^ mask1)
  let crc1 := modes_checksum msg
  let tbl := (crc1, i ||| (j <<< 8)) :: st.2
  let msg := msg.set bytepos1 (msg.getD bytepos1 0 &&& mask1)
  (msg, tbl)

/-- `crc.rs`: body of the outer `for i in 5..112` loop of
`modes_init_error_info`. -/
def outerStep (st : List Nat × List (Nat × Nat)) (i : Nat) :
    List Nat × List (Nat × Nat) :=
  let bytepos0 := i >>> 3
  let mask0 := 1 <<< (7 - (i &&& 7))
  let msg := st.1.set bytepos0 (st.1.getD bytepos0 0 &&& mask0)
  let crc0 := modes_checksum msg
  let tbl := (crc0, i) :: st.2
  let st2 := (List.range' (i + 1) (112 - (i + 1))).foldl (innerStep i) (msg, tbl)
  let msg2 := st2.1.set bytepos0 (st2.1.getD bytepos0 0 &&& mask0)
  (msg2, st2.2)

/-- `crc.rs`: `modes_init_error_info` — the bit-error table built from the
(initially all-zero) 14-byte work message. -/
def modes_init_error_info : List (Nat × Nat) :=
  ((List.range' 5 107).foldl outerStep (List.replicate MODES_LONG_MSG_BYTES 0, [])).2

/-- `crc.rs`: `fix_bit_errors`.  Returns the number of corrected bits
together with the (possibly repaired) message; the source repairs the
byte slice in place. -/
def fix_bit_errors (msg : List Nat) (bit_error_table : List (Nat × Nat)) :
    Nat × List Nat :=
  let syndrome := modes_checksum msg
  let offset := MODES_LONG_MSG_BITS - msg.length * 8
  match List.lookup syndrome bit_error_table with
  | some pei =>
    let a := pei &&& 0xff
    let b := (pei >>> 8) &&& 0xff
    if b ≠ 0 then
      if offset > a then (0, msg)
      else if offset > b then (0, msg)
      else
        let bitpos0 := a - offset
        let bitpos1 := b - offset
        let msg := msg.set (bitpos0 >>> 3) (msg.getD (bitpos0 >>> 3) 0 ^^^ (1 <<< (7 - (bitpos0 &&& 7))))
        let msg := msg.set (bitpos1 >>> 3) (msg.getD (bitpos1 >>> 3) 0 ^^^ (1 <<< (7 - (bitpos1 &&& 7))))
        (2, msg)
    else
      if offset > a then (0, msg)
      else
        let bitpos0 := a - offset
        let msg := msg.set (bitpos0 >>> 3) (msg.getD (bitpos0 >>> 3) 0 ^^^ (1 <<< (7 - (bitpos0 &&& 7))))
        (1, msg)
  | none => (0, msg)

/-- C2's encoding step, from the claim: replace the last three bytes of
`msg` by the 24-bit CRC, high byte first. -/
def encode_with_crc (msg : List Nat) : List Nat :=
  let crc := modes_compute_crc msg
  msg.take (msg.length - 3) ++ [crc >>> 16, (crc >>> 8) &&& 0xff, crc &&& 0xff]

/-- C10: whenever `fix_bit_errors` reports zero repaired bits, the message
comes back byte-for-byte unchanged; in particular the two underflow checks
of the two-bit branch both precede either flip. -/
theorem fix_bit_errors_zero_unchanged (msg : List Nat) (tbl : List (Nat × Nat))
    (h : (fix_bit_errors msg tbl).1 = 0) : (fix_bit_errors msg tbl).2 = msg := by
  simp only [fix_bit_errors] at h ⊢
  cases hl : List.lookup (modes_checksum msg) tbl with
  | none => simp only [hl]
  | some pei =>
    simp only [hl] at h ⊢
    by_cases hb : (pei >>> 8) &&& 0xff ≠ 0
    · rw [if_pos hb] at h ⊢
      by_cases ha : MODES_LONG_MSG_BITS - msg.length * 8 > pei &&& 0xff
      · rw [if_pos ha]
      · rw [if_neg ha] at h ⊢
        by_cases hc : MODES_LONG_MSG_BITS - msg.length * 8 > (pei >>> 8) &&& 0xff
        · rw [if_pos hc]
        · rw [if_neg hc] at h
          simp at h
    · rw [if_neg hb] at h ⊢
      by_cases ha : MODES_LONG_MSG_BITS - msg.length * 8 > pei &&& 0xff
      · rw [if_pos ha]
      · rw [if_neg ha] at h
        simp at h

/-- Witness for C10 at a concrete input: the empty table fixes nothing and
leaves the all-zero long message unchanged. -/
theorem fix_bit_errors_zero_unchanged_witness :
    (fix_bit_errors (List.replicate 14 0) []).1 = 0 ∧
      (fix_bit_errors (List.replicate 14 0) []).2 = List.replicate 14 0 :=
  ⟨by decide, fix_bit_errors_zero_unchanged _ _ (by decide)⟩

/-- `modes_compute_crc` only looks at byte `j / 8` for `j < len·8 − 24`:
two equal-length messages agreeing there have equal CRCs. -/
theorem modes_compute_crc_congr (m1 m2 : List Nat) (hlen : m1.length = m2.length)
    (hget : ∀ j < m1.length * 8 - 24, m1.getD (j / 8) 0 = m2.getD (j / 8) 0) :
    modes_compute_crc m1 = modes_compute_crc m2 := by
  unfold modes_compute_crc
  simp only [hlen]
  congr 1
  apply List.foldl_ext
  intro a j hj
  rw [List.mem_range] at hj
  rw [hlen] at hget
  rw [hget j hj]

/-- `modes_compute_crc` is at most 24 bits. -/
theorem modes_compute_crc_lt (msg : List Nat) : modes_compute_crc msg < 2 ^ 24 := by
  unfold modes_compute_crc
  exact Nat.and_lt_two_pow _ (by norm_num)

/-- Reassembling a 24-bit value from its three bytes (as `modes_checksum`
reads them back, high byte first) recovers the value. -/
theorem recompose24 (c : Nat) (hc : c < 2 ^ 24) :
    ((c >>> 16) <<< 16) ||| (((c >>> 8) &&& 0xff) <<< 8) ||| (c &&& 0xff) = c := by
  apply Nat.eq_of_testBit_eq
  intro i
  have h255 : (0xff : Nat) = 2 ^ 8 - 1 := by norm_num
  simp only [Nat.testBit_or, Nat.testBit_shiftLeft, Nat.testBit_shiftRight, Nat.testBit_and,
    h255, Nat.testBit_two_pow_sub_one]
  rcases Nat.lt_or_ge i 8 with h1 | h1
  · have e1 : decide (i ≥ 16) = false := by simp only [decide_eq_false_iff_not]; omega
    have e2 : decide (i ≥ 8) = false := by simp only [decide_eq_false_iff_not]; omega
    have e3 : decide (i < 8) = true := by simp only [decide_eq_true_eq]; omega
    simp [e1, e2, e3]
  rcases Nat.lt_or_ge i 16 with h2 | h2
  · have e1 : decide (i ≥ 16) = false := by simp only [decide_eq_false_iff_not]; omega
    have e2 : decide (i ≥ 8) = true := by simp only [decide_eq_true_eq]; omega
    have e3 : decide (i < 8) = false := by simp only [decide_eq_false_iff_not]; omega
    have e4 : decide (i - 8 < 8) = true := by simp only [decide_eq_true_eq]; omega
    have e5 : 8 + (i - 8) = i := by omega
    simp [e1, e2, e3, e4, e5]
  rcases Nat.lt_or_ge i 24 with h3 | h3
  · have e1 : decide (i ≥ 16) = true := by simp only [decide_eq_true_eq]; omega
    have e2 : decide (i - 8 < 8) = false := by simp only [decide_eq_false_iff_not]; omega
    have e3 : decide (i < 8) = false := by simp only [decide_eq_false_iff_not]; omega
    have e5 : 16 + (i - 16) = i := by omega
    simp [e1, e2, e3, e5]
  · have hz : c.testBit i = false :=
      Nat.testBit_eq_false_of_lt (lt_of_lt_of_le hc (Nat.pow_le_pow_right (by norm_num) h3))
    have e2 : decide (i - 8 < 8) = false := by simp only [decide_eq_false_iff_not]; omega
    have e3 : decide (i < 8) = false := by simp only [decide_eq_false_iff_not]; omega
    have e5 : 16 + (i - 16) = i := by omega
    have e6 : 8 + (i - 8) = i := by omega
    simp [e2, e3, e5, e6, hz]

/-- `List.getD` on a `take`-prefix agrees with the original list below the cut. -/
theorem getD_take_of_lt (l : List α) (d : α) {m n : Nat} (h : m < n) :
    (l.take n).getD m d = l.getD m d := by
  simp [List.getD_eq_getElem?_getD, List.getElem?_take_of_lt h]

/-- The CRC-encoded message has the same length as the original. -/
theorem encode_with_crc_length (msg : List Nat) (h3 : 3 ≤ msg.length) :
    (encode_with_crc msg).length = msg.length := by
  simp [encode_with_crc]
  omega

/-- Replacing the last three bytes does not change the computed CRC
(the CRC only reads bytes below `len − 3`). -/
theorem modes_compute_crc_encode (msg : List Nat) (h : msg.length = 7 ∨ msg.length = 14) :
    modes_compute_crc (encode_with_crc msg) = modes_compute_crc msg := by
  have h3 : 3 ≤ msg.length := by rcases h with h | h <;> omega
  apply modes_compute_crc_congr
  · exact encode_with_crc_length msg h3
  · intro j hj
    rw [encode_with_crc_length msg h3] at hj
    have hj8 : j / 8 < msg.length - 3 := by
      apply Nat.div_lt_of_lt_mul
      omega
    have htl : (msg.take (msg.length - 3)).length = msg.length - 3 := by
      rw [List.length_take]; omega
    unfold encode_with_crc
    rw [List.getD_append _ _ _ _ (by rw [htl]; exact hj8)]
    exact getD_take_of_lt msg 0 hj8

/-- C2: for every 7- or 14-byte message, overwriting the last three bytes
with the 24-bit CRC (high byte first) produces a message whose
`modes_checksum` is zero. -/
theorem checksum_encode_zero (msg : List Nat) (h : msg.length = 7 ∨ msg.length = 14) :
    modes_checksum (encode_with_crc msg) = 0 := by
  have h3 : 3 ≤ msg.length := by rcases h with h | h <;> omega
  have hlen := encode_with_crc_length msg h3
  have htl : (msg.take (msg.length - 3)).length = msg.length - 3 := by
    rw [List.length_take]; omega
  simp only [modes_checksum]
  rw [hlen, modes_compute_crc_encode msg h]
  have hb : ∀ k : Nat, k < 3 →
      (encode_with_crc msg).getD (msg.length - 3 + k) 0 =
        [modes_compute_crc msg >>> 16, (modes_compute_crc msg >>> 8) &&& 0xff,
          modes_compute_crc msg &&& 0xff].getD k 0 := by
    intro k _
    unfold encode_with_crc
    rw [List.getD_append_right _ _ _ _ (by rw [htl]; omega), htl]
    congr 1
    omega
  have h0 := hb 0 (by norm_num)
  have h1 := hb 1 (by norm_num)
  have h2 := hb 2 (by norm_num)
  rw [show msg.length - 3 + 0 = msg.length - 3 from by omega] at h0
  rw [show msg.length - 3 + 1 = msg.length - 2 from by omega] at h1
  rw [show msg.length - 3 + 2 = msg.length - 1 from by omega] at h2
  rw [h0, h1, h2]
  simp only [List.getD_cons_zero, List.getD_cons_succ]
  rw [recompose24 (modes_compute_crc msg) (modes_compute_crc_lt msg)]
  simp

/-- Witness for C2 at the canonical DF17 test frame. -/
theorem checksum_encode_zero_witness :
    (([0x8D, 0x48, 0x40, 0xD6, 0x20, 0x2C, 0xC3, 0x71, 0xC3, 0x2C, 0xE0, 0x57, 0x60, 0x98] :
        List Nat).length = 7 ∨
      ([0x8D, 0x48, 0x40, 0xD6, 0x20, 0x2C, 0xC3, 0x71, 0xC3, 0x2C, 0xE0, 0x57, 0x60, 0x98] :
        List Nat).length = 14) ∧
    modes_checksum (encode_with_crc
      [0x8D, 0x48, 0x40, 0xD6, 0x20, 0x2C, 0xC3, 0x71, 0xC3, 0x2C, 0xE0, 0x57, 0x60, 0x98]) = 0 :=
  ⟨Or.inr (by decide), checksum_encode_zero _ (Or.inr (by decide))⟩

/-- Inner-loop effect of `modes_init_error_info` on the work message alone:
set bit `j`, take the checksum key (see `innerKey`), then mask the byte with
the bit: the source uses `&` where the reference restores with `& !mask`. -/
def innerMsgStep (j : Nat) (msg : List Nat) : List Nat :=
  let bytepos1 := j >>> 3
  let mask1 := 1 <<< (7 - (j &&& 7))
  let m1 := msg.set bytepos1 (msg.getD bytepos1 0 ^^^ mask1)
  m1.set bytepos1 (m1.getD bytepos1 0 &&& mask1)

/-- The syndrome key inserted by the inner loop at bit `j`. -/
def innerKey (j : Nat) (msg : List Nat) : Nat :=
  let bytepos1 := j >>> 3
  let mask1 := 1 <<< (7 - (j &&& 7))
  modes_checksum (msg.set bytepos1 (msg.getD bytepos1 0 ^^^ mask1))

/-- Work-message evolution across a list of inner-loop indices. -/
def innerMsg (l : List Nat) (msg : List Nat) : List Nat :=
  l.foldl (fun m j => innerMsgStep j m) msg

/-- The bindings inserted by the inner loop across indices `l`, newest
first (the association-list image of the `HashMap` insertions). -/
def innerEntries (i : Nat) : List Nat → List Nat → List (Nat × Nat)
  | [], _ => []
  | j :: rest, msg => innerEntries i rest (innerMsgStep j msg) ++ [(innerKey j msg, i ||| (j <<< 8))]

theorem innerStep_eq (i j : Nat) (msg : List Nat) (tbl : List (Nat × Nat)) :
    innerStep i (msg, tbl) j =
      (innerMsgStep j msg, (innerKey j msg, i ||| (j <<< 8)) :: tbl) := rfl

theorem inner_decomp (i : Nat) : ∀ (l : List Nat) (msg : List Nat) (tbl : List (Nat × Nat)),
    l.foldl (innerStep i) (msg, tbl) = (innerMsg l msg, innerEntries i l msg ++ tbl)
  | [], msg, tbl => by simp [innerMsg, innerEntries]
  | j :: rest, msg, tbl => by
    rw [List.foldl_cons, innerStep_eq, inner_decomp i rest]
    simp [innerMsg, innerEntries, List.append_assoc]

/-- Work-message effect of one outer iteration of `modes_init_error_info`. -/
def outerMsg (i : Nat) (msg : List Nat) : List Nat :=
  let bytepos0 := i >>> 3
  let mask0 := 1 <<< (7 - (i &&& 7))
  let msgA := msg.set bytepos0 (msg.getD bytepos0 0 &&& mask0)
  let msgB := innerMsg (List.range' (i + 1) (112 - (i + 1))) msgA
  msgB.set bytepos0 (msgB.getD bytepos0 0 &&& mask0)

/-- The bindings inserted by one outer iteration, newest first. -/
def outerEntries (i : Nat) (msg : List Nat) : List (Nat × Nat) :=
  let bytepos0 := i >>> 3
  let mask0 := 1 <<< (7 - (i &&& 7))
  let msgA := msg.set bytepos0 (msg.getD bytepos0 0 &&& mask0)
  innerEntries i (List.range' (i + 1) (112 - (i + 1))) msgA ++ [(modes_checksum msgA, i)]

theorem outerStep_eq (msg : List Nat) (tbl : List (Nat × Nat)) (i : Nat) :
    outerStep (msg, tbl) i = (outerMsg i msg, outerEntries i msg ++ tbl) := by
  simp only [outerStep, outerMsg, outerEntries]
  rw [inner_decomp]
  simp [List.append_assoc]

/-- All bindings inserted over a list of outer iterations, newest first. -/
def buildEntries : List Nat → List Nat → List (Nat × Nat)
  | [], _ => []
  | i :: rest, msg => buildEntries rest (outerMsg i msg) ++ outerEntries i msg

theorem build_decomp : ∀ (l : List Nat) (msg : List Nat) (tbl : List (Nat × Nat)),
    (l.foldl outerStep (msg, tbl)).2 = buildEntries l msg ++ tbl
  | [], msg, tbl => by simp [buildEntries]
  | i :: rest, msg, tbl => by
    rw [List.foldl_cons, outerStep_eq, build_decomp rest]
    simp [buildEntries, List.append_assoc]

theorem init_error_info_eq :
    modes_init_error_info = buildEntries (List.range' 5 107)
      (List.replicate MODES_LONG_MSG_BYTES 0) := by
  unfold modes_init_error_info
  rw [build_decomp, List.append_nil]

/-- Snapshots of the work message before each outer iteration `i = 5 .. 111`
of `modes_init_error_info` (index `i - 5`). -/
def msg_checkpoints : List (List Nat) := [
  [0, 0, 0, 0, 0, 0, 0, 0, 0, 0, 0, 0, 0, 0],
  [0, 1, 1, 1, 1, 1, 1, 1, 1, 1, 1, 1, 1, 1],
  [0, 1, 1, 1, 1, 1, 1, 1, 1, 1, 1, 1, 1, 1],
  [0, 1, 1, 1, 1, 1, 1, 1, 1, 1, 1, 1, 1, 1],
  [0, 0, 1, 1, 1, 1, 1, 1, 1, 1, 1, 1, 1, 1],
  [0, 0, 1, 1, 1, 1, 1, 1, 1, 1, 1, 1, 1, 1],
  [0, 0, 1, 1, 1, 1, 1, 1, 1, 1, 1, 1, 1, 1],
  [0, 0, 1, 1, 1, 1, 1, 1, 1, 1, 1, 1, 1, 1],
  [0, 0, 1, 1, 1, 1, 1, 1, 1, 1, 1, 1, 1, 1],
  [0, 0, 1, 1, 1, 1, 1, 1, 1, 1, 1, 1, 1, 1],
  [0, 0, 1, 1, 1, 1, 1, 1, 1, 1, 1, 1, 1, 1],
  [0, 0, 1, 1, 1, 1, 1, 1, 1, 1, 1, 1, 1, 1],
  [0, 0, 0, 1, 1, 1, 1, 1, 1, 1, 1, 1, 1, 1],
  [0, 0, 0, 1, 1, 1, 1, 1, 1, 1, 1, 1, 1, 1],
  [0, 0, 0, 1, 1, 1, 1, 1, 1, 1, 1, 1, 1, 1],
  [0, 0, 0, 1, 1, 1, 1, 1, 1, 1, 1, 1, 1, 1],
  [0, 0, 0, 1, 1, 1, 1, 1, 1, 1, 1, 1, 1, 1],
  [0, 0, 0, 1, 1, 1, 1, 1, 1, 1, 1, 1, 1, 1],
  [0, 0, 0, 1, 1, 1, 1, 1, 1, 1, 1, 1, 1, 1],
  [0, 0, 0, 1, 1, 1, 1, 1, 1, 1, 1, 1, 1, 1],
  [0, 0, 0, 0, 1, 1, 1, 1, 1, 1, 1, 1, 1, 1],
  [0, 0, 0, 0, 1, 1, 1, 1, 1, 1, 1, 1, 1, 1],
  [0, 0, 0, 0, 1, 1, 1, 1, 1, 1, 1, 1, 1, 1],
  [0, 0, 0, 0, 1, 1, 1, 1, 1, 1, 1, 1, 1, 1],
  [0, 0, 0, 0, 1, 1, 1, 1, 1, 1, 1, 1, 1, 1],
  [0, 0, 0, 0, 1, 1, 1, 1, 1, 1, 1, 1, 1, 1],
  [0, 0, 0, 0, 1, 1, 1, 1, 1, 1, 1, 1, 1, 1],
  [0, 0, 0, 0, 1, 1, 1, 1, 1, 1, 1, 1, 1, 1],
  [0, 0, 0, 0, 0, 1, 1, 1, 1, 1, 1, 1, 1, 1],
  [0, 0, 0, 0, 0, 1, 1, 1, 1, 1, 1, 1, 1, 1],
  [0, 0, 0, 0, 0, 1, 1, 1, 1, 1, 1, 1, 1, 1],
  [0, 0, 0, 0, 0, 1, 1, 1, 1, 1, 1, 1, 1, 1],
  [0, 0, 0, 0, 0, 1, 1, 1, 1, 1, 1, 1, 1, 1],
  [0, 0, 0, 0, 0, 1, 1, 1, 1, 1, 1, 1, 1, 1],
  [0, 0, 0, 0, 0, 1, 1, 1, 1, 1, 1, 1, 1, 1],
  [0, 0, 0, 0, 0, 1, 1, 1, 1, 1, 1, 1, 1, 1],
  [0, 0, 0, 0, 0, 0, 1, 1, 1, 1, 1, 1, 1, 1],
  [0, 0, 0, 0, 0, 0, 1, 1, 1, 1, 1, 1, 1, 1],
  [0, 0, 0, 0, 0, 0, 1, 1, 1, 1, 1, 1, 1, 1],
  [0, 0, 0, 0, 0, 0, 1, 1, 1, 1, 1, 1, 1, 1],
  [0, 0, 0, 0, 0, 0, 1, 1, 1, 1, 1, 1, 1, 1],
  [0, 0, 0, 0, 0, 0, 1, 1, 1, 1, 1, 1, 1, 1],
  [0, 0, 0, 0, 0, 0, 1, 1, 1, 1, 1, 1, 1, 1],
  [0, 0, 0, 0, 0, 0, 1, 1, 1, 1, 1, 1, 1, 1],
  [0, 0, 0, 0, 0, 0, 0, 1, 1, 1, 1, 1, 1, 1],
  [0, 0, 0, 0, 0, 0, 0, 1, 1, 1, 1, 1, 1, 1],
  [0, 0, 0, 0, 0, 0, 0, 1, 1, 1, 1, 1, 1, 1],
  [0, 0, 0, 0, 0, 0, 0, 1, 1, 1, 1, 1, 1, 1],
  [0, 0, 0, 0, 0, 0, 0, 1, 1, 1, 1, 1, 1, 1],
  [0, 0, 0, 0, 0, 0, 0, 1, 1, 1, 1, 1, 1, 1],
  [0, 0, 0, 0, 0, 0, 0, 1, 1, 1, 1, 1, 1, 1],
  [0, 0, 0, 0, 0, 0, 0, 1, 1, 1, 1, 1, 1, 1],
  [0, 0, 0, 0, 0, 0, 0, 0, 1, 1, 1, 1, 1, 1],
  [0, 0, 0, 0, 0, 0, 0, 0, 1, 1, 1, 1, 1, 1],
  [0, 0, 0, 0, 0, 0, 0, 0, 1, 1, 1, 1, 1, 1],
  [0, 0, 0, 0, 0, 0, 0, 0, 1, 1, 1, 1, 1, 1],
  [0, 0, 0, 0, 0, 0, 0, 0, 1, 1, 1, 1, 1, 1],
  [0, 0, 0, 0, 0, 0, 0, 0, 1, 1, 1, 1, 1, 1],
  [0, 0, 0, 0, 0, 0, 0, 0, 1, 1, 1, 1, 1, 1],
  [0, 0, 0, 0, 0, 0, 0, 0, 1, 1, 1, 1, 1, 1],
  [0, 0, 0, 0, 0, 0, 0, 0, 0, 1, 1, 1, 1, 1],
  [0, 0, 0, 0, 0, 0, 0, 0, 0, 1, 1, 1, 1, 1],
  [0, 0, 0, 0, 0, 0, 0, 0, 0, 1, 1, 1, 1, 1],
  [0, 0, 0, 0, 0, 0, 0, 0, 0, 1, 1, 1, 1, 1],
  [0, 0, 0, 0, 0, 0, 0, 0, 0, 1, 1, 1, 1, 1],
  [0, 0, 0, 0, 0, 0, 0, 0, 0, 1, 1, 1, 1, 1],
  [0, 0, 0, 0, 0, 0, 0, 0, 0, 1, 1, 1, 1, 1],
  [0, 0, 0, 0, 0, 0, 0, 0, 0, 1, 1, 1, 1, 1],
  [0, 0, 0, 0, 0, 0, 0, 0, 0, 0, 1, 1, 1, 1],
  [0, 0, 0, 0, 0, 0, 0, 0, 0, 0, 1, 1, 1, 1],
  [0, 0, 0, 0, 0, 0, 0, 0, 0, 0, 1, 1, 1, 1],
  [0, 0, 0, 0, 0, 0, 0, 0, 0, 0, 1, 1, 1, 1],
  [0, 0, 0, 0, 0, 0, 0, 0, 0, 0, 1, 1, 1, 1],
  [0, 0, 0, 0, 0, 0, 0, 0, 0, 0, 1, 1, 1, 1],
  [0, 0, 0, 0, 0, 0, 0, 0, 0, 0, 1, 1, 1, 1],
  [0, 0, 0, 0, 0, 0, 0, 0, 0, 0, 1, 1, 1, 1],
  [0, 0, 0, 0, 0, 0, 0, 0, 0, 0, 0, 1, 1, 1],
  [0, 0, 0, 0, 0, 0, 0, 0, 0, 0, 0, 1, 1, 1],
  [0, 0, 0, 0, 0, 0, 0, 0, 0, 0, 0, 1, 1, 1],
  [0, 0, 0, 0, 0, 0, 0, 0, 0, 0, 0, 1, 1, 1],
  [0, 0, 0, 0, 0, 0, 0, 0, 0, 0, 0, 1, 1, 1],
  [0, 0, 0, 0, 0, 0, 0, 0, 0, 0, 0, 1, 1, 1],
  [0, 0, 0, 0, 0, 0, 0, 0, 0, 0, 0, 1, 1, 1],
  [0, 0, 0, 0, 0, 0, 0, 0, 0, 0, 0, 1, 1, 1],
  [0, 0, 0, 0, 0, 0, 0, 0, 0, 0, 0, 0, 1, 1],
  [0, 0, 0, 0, 0, 0, 0, 0, 0, 0, 0, 0, 1, 1],
  [0, 0, 0, 0, 0, 0, 0, 0, 0, 0, 0, 0, 1, 1],
  [0, 0, 0, 0, 0, 0, 0, 0, 0, 0, 0, 0, 1, 1],
  [0, 0, 0, 0, 0, 0, 0, 0, 0, 0, 0, 0, 1, 1],
  [0, 0, 0, 0, 0, 0, 0, 0, 0, 0, 0, 0, 1, 1],
  [0, 0, 0, 0, 0, 0, 0, 0, 0, 0, 0, 0, 1, 1],
  [0, 0, 0, 0, 0, 0, 0, 0, 0, 0, 0, 0, 1, 1],
  [0, 0, 0, 0, 0, 0, 0, 0, 0, 0, 0, 0, 0, 1],
  [0, 0, 0, 0, 0, 0, 0, 0, 0, 0, 0, 0, 0, 1],
  [0, 0, 0, 0, 0, 0, 0, 0, 0, 0, 0, 0, 0, 1],
  [0, 0, 0, 0, 0, 0, 0, 0, 0, 0, 0, 0, 0, 1],
  [0, 0, 0, 0, 0, 0, 0, 0, 0, 0, 0, 0, 0, 1],
  [0, 0, 0, 0, 0, 0, 0, 0, 0, 0, 0, 0, 0, 1],
  [0, 0, 0, 0, 0, 0, 0, 0, 0, 0, 0, 0, 0, 1],
  [0, 0, 0, 0, 0, 0, 0, 0, 0, 0, 0, 0, 0, 1],
  [0, 0, 0, 0, 0, 0, 0, 0, 0, 0, 0, 0, 0, 0],
  [0, 0, 0, 0, 0, 0, 0, 0, 0, 0, 0, 0, 0, 0],
  [0, 0, 0, 0, 0, 0, 0, 0, 0, 0, 0, 0, 0, 0],
  [0, 0, 0, 0, 0, 0, 0, 0, 0, 0, 0, 0, 0, 0],
  [0, 0, 0, 0, 0, 0, 0, 0, 0, 0, 0, 0, 0, 0],
  [0, 0, 0, 0, 0, 0, 0, 0, 0, 0, 0, 0, 0, 0],
  [0, 0, 0, 0, 0, 0, 0, 0, 0, 0, 0, 0, 0, 0]]

/-- The work message before outer iteration `k` (`5 ≤ k ≤ 111`). -/
def checkpoint_msg (k : Nat) : List Nat := msg_checkpoints.getD (k - 5) []

theorem checkpoint_step_d0 :
    outerMsg (5 + 0) (checkpoint_msg (5 + 0)) = checkpoint_msg (6 + 0) := by decide

theorem checkpoint_step_d1 :
    outerMsg (5 + 1) (checkpoint_msg (5 + 1)) = checkpoint_msg (6 + 1) := by decide

theorem checkpoint_step_d2 :
    outerMsg (5 + 2) (checkpoint_msg (5 + 2)) = checkpoint_msg (6 + 2) := by decide

theorem checkpoint_step_d3 :
    outerMsg (5 + 3) (checkpoint_msg (5 + 3)) = checkpoint_msg (6 + 3) := by decide

theorem checkpoint_step_d4 :
    outerMsg (5 + 4) (checkpoint_msg (5 + 4)) = checkpoint_msg (6 + 4) := by decide

theorem checkpoint_step_d5 :
    outerMsg (5 + 5) (checkpoint_msg (5 + 5)) = checkpoint_msg (6 + 5) := by decide

theorem checkpoint_step_d6 :
    outerMsg (5 + 6) (checkpoint_msg (5 + 6)) = checkpoint_msg (6 + 6) := by decide

theorem checkpoint_step_d7 :
    outerMsg (5 + 7) (checkpoint_msg (5 + 7)) = checkpoint_msg (6 + 7) := by decide

theorem checkpoint_step_d8 :
    outerMsg (5 + 8) (checkpoint_msg (5 + 8)) = checkpoint_msg (6 + 8) := by decide

theorem checkpoint_step_d9 :
    outerMsg (5 + 9) (checkpoint_msg (5 + 9)) = checkpoint_msg (6 + 9) := by decide

theorem checkpoint_step_d10 :
    outerMsg (5 + 10) (checkpoint_msg (5 + 10)) = checkpoint_msg (6 + 10) := by decide

theorem checkpoint_step_d11 :
    outerMsg (5 + 11) (checkpoint_msg (5 + 11)) = checkpoint_msg (6 + 11) := by decide

theorem checkpoint_step_d12 :
    outerMsg (5 + 12) (checkpoint_msg (5 + 12)) = checkpoint_msg (6 + 12) := by decide

theorem checkpoint_step_d13 :
    outerMsg (5 + 13) (checkpoint_msg (5 + 13)) = checkpoint_msg (6 + 13) := by decide

theorem checkpoint_step_d14 :
    outerMsg (5 + 14) (checkpoint_msg (5 + 14)) = checkpoint_msg (6 + 14) := by decide

theorem checkpoint_step_d15 :
    outerMsg (5 + 15) (checkpoint_msg (5 + 15)) = checkpoint_msg (6 + 15) := by decide

theorem checkpoint_step_d16 :
    outerMsg (5 + 16) (checkpoint_msg (5 + 16)) = checkpoint_msg (6 + 16) := by decide

theorem checkpoint_step_d17 :
    outerMsg (5 + 17) (checkpoint_msg (5 + 17)) = checkpoint_msg (6 + 17) := by decide

theorem checkpoint_step_d18 :
    outerMsg (5 + 18) (checkpoint_msg (5 + 18)) = checkpoint_msg (6 + 18) := by decide

theorem checkpoint_step_d19 :
    outerMsg (5 + 19) (checkpoint_msg (5 + 19)) = checkpoint_msg (6 + 19) := by decide

theorem checkpoint_step_d20 :
    outerMsg (5 + 20) (checkpoint_msg (5 + 20)) = checkpoint_msg (6 + 20) := by decide

theorem checkpoint_step_d21 :
    outerMsg (5 + 21) (checkpoint_msg (5 + 21)) = checkpoint_msg (6 + 21) := by decide

theorem checkpoint_step_d22 :
    outerMsg (5 + 22) (checkpoint_msg (5 + 22)) = checkpoint_msg (6 + 22) := by decide

theorem checkpoint_step_d23 :
    outerMsg (5 + 23) (checkpoint_msg (5 + 23)) = checkpoint_msg (6 + 23) := by decide

theorem checkpoint_step_d24 :
    outerMsg (5 + 24) (checkpoint_msg (5 + 24)) = checkpoint_msg (6 + 24) := by decide

theorem checkpoint_step_d25 :
    outerMsg (5 + 25) (checkpoint_msg (5 + 25)) = checkpoint_msg (6 + 25) := by decide

theorem checkpoint_step_d26 :
    outerMsg (5 + 26) (checkpoint_msg (5 + 26)) = checkpoint_msg (6 + 26) := by decide

theorem checkpoint_step_d27 :
    outerMsg (5 + 27) (checkpoint_msg (5 + 27)) = checkpoint_msg (6 + 27) := by decide

theorem checkpoint_step_d28 :
    outerMsg (5 + 28) (checkpoint_msg (5 + 28)) = checkpoint_msg (6 + 28) := by decide

theorem checkpoint_step_d29 :
    outerMsg (5 + 29) (checkpoint_msg (5 + 29)) = checkpoint_msg (6 + 29) := by decide

theorem checkpoint_step_d30 :
    outerMsg (5 + 30) (checkpoint_msg (5 + 30)) = checkpoint_msg (6 + 30) := by decide

theorem checkpoint_step_d31 :
    outerMsg (5 + 31) (checkpoint_msg (5 + 31)) = checkpoint_msg (6 + 31) := by decide

theorem checkpoint_step_d32 :
    outerMsg (5 + 32) (checkpoint_msg (5 + 32)) = checkpoint_msg (6 + 32) := by decide

theorem checkpoint_step_d33 :
    outerMsg (5 + 33) (checkpoint_msg (5 + 33)) = checkpoint_msg (6 + 33) := by decide

theorem checkpoint_step_d34 :
    outerMsg (5 + 34) (checkpoint_msg (5 + 34)) = checkpoint_msg (6 + 34) := by decide

theorem checkpoint_step_d35 :
    outerMsg (5 + 35) (checkpoint_msg (5 + 35)) = checkpoint_msg (6 + 35) := by decide

theorem checkpoint_step_d36 :
    outerMsg (5 + 36) (checkpoint_msg (5 + 36)) = checkpoint_msg (6 + 36) := by decide

theorem checkpoint_step_d37 :
    outerMsg (5 + 37) (checkpoint_msg (5 + 37)) = checkpoint_msg (6 + 37) := by decide

theorem checkpoint_step_d38 :
    outerMsg (5 + 38) (checkpoint_msg (5 + 38)) = checkpoint_msg (6 + 38) := by decide

theorem checkpoint_step_d39 :
    outerMsg (5 + 39) (checkpoint_msg (5 + 39)) = checkpoint_msg (6 + 39) := by decide

theorem checkpoint_step_d40 :
    outerMsg (5 + 40) (checkpoint_msg (5 + 40)) = checkpoint_msg (6 + 40) := by decide

theorem checkpoint_step_d41 :
    outerMsg (5 + 41) (checkpoint_msg (5 + 41)) = checkpoint_msg (6 + 41) := by decide

theorem checkpoint_step_d42 :
    outerMsg (5 + 42) (checkpoint_msg (5 + 42)) = checkpoint_msg (6 + 42) := by decide

theorem checkpoint_step_d43 :
    outerMsg (5 + 43) (checkpoint_msg (5 + 43)) = checkpoint_msg (6 + 43) := by decide

theorem checkpoint_step_d44 :
    outerMsg (5 + 44) (checkpoint_msg (5 + 44)) = checkpoint_msg (6 + 44) := by decide

theorem checkpoint_step_d45 :
    outerMsg (5 + 45) (checkpoint_msg (5 + 45)) = checkpoint_msg (6 + 45) := by decide

theorem checkpoint_step_d46 :
    outerMsg (5 + 46) (checkpoint_msg (5 + 46)) = checkpoint_msg (6 + 46) := by decide

theorem checkpoint_step_d47 :
    outerMsg (5 + 47) (checkpoint_msg (5 + 47)) = checkpoint_msg (6 + 47) := by decide

theorem checkpoint_step_d48 :
    outerMsg (5 + 48) (checkpoint_msg (5 + 48)) = checkpoint_msg (6 + 48) := by decide

theorem checkpoint_step_d49 :
    outerMsg (5 + 49) (checkpoint_msg (5 + 49)) = checkpoint_msg (6 + 49) := by decide

theorem checkpoint_step_d50 :
    outerMsg (5 + 50) (checkpoint_msg (5 + 50)) = checkpoint_msg (6 + 50) := by decide

theorem checkpoint_step_d51 :
    outerMsg (5 + 51) (checkpoint_msg (5 + 51)) = checkpoint_msg (6 + 51) := by decide

theorem checkpoint_step_d52 :
    outerMsg (5 + 52) (checkpoint_msg (5 + 52)) = checkpoint_msg (6 + 52) := by decide

theorem checkpoint_step_d53 :
    outerMsg (5 + 53) (checkpoint_msg (5 + 53)) = checkpoint_msg (6 + 53) := by decide

theorem checkpoint_step_d54 :
    outerMsg (5 + 54) (checkpoint_msg (5 + 54)) = checkpoint_msg (6 + 54) := by decide

theorem checkpoint_step_d55 :
    outerMsg (5 + 55) (checkpoint_msg (5 + 55)) = checkpoint_msg (6 + 55) := by decide

theorem checkpoint_step_d56 :
    outerMsg (5 + 56) (checkpoint_msg (5 + 56)) = checkpoint_msg (6 + 56) := by decide

theorem checkpoint_step_d57 :
    outerMsg (5 + 57) (checkpoint_msg (5 + 57)) = checkpoint_msg (6 + 57) := by decide

theorem checkpoint_step_d58 :
    outerMsg (5 + 58) (checkpoint_msg (5 + 58)) = checkpoint_msg (6 + 58) := by decide

theorem checkpoint_step_d59 :
    outerMsg (5 + 59) (checkpoint_msg (5 + 59)) = checkpoint_msg (6 + 59) := by decide

theorem checkpoint_step_d60 :
    outerMsg (5 + 60) (checkpoint_msg (5 + 60)) = checkpoint_msg (6 + 60) := by decide

theorem checkpoint_step_d61 :
    outerMsg (5 + 61) (checkpoint_msg (5 + 61)) = checkpoint_msg (6 + 61) := by decide

theorem checkpoint_step_d62 :
    outerMsg (5 + 62) (checkpoint_msg (5 + 62)) = checkpoint_msg (6 + 62) := by decide

theorem checkpoint_step_d63 :
    outerMsg (5 + 63) (checkpoint_msg (5 + 63)) = checkpoint_msg (6 + 63) := by decide

theorem checkpoint_step_d64 :
    outerMsg (5 + 64) (checkpoint_msg (5 + 64)) = checkpoint_msg (6 + 64) := by decide

theorem checkpoint_step_d65 :
    outerMsg (5 + 65) (checkpoint_msg (5 + 65)) = checkpoint_msg (6 + 65) := by decide

theorem checkpoint_step_d66 :
    outerMsg (5 + 66) (checkpoint_msg (5 + 66)) = checkpoint_msg (6 + 66) := by decide

theorem checkpoint_step_d67 :
    outerMsg (5 + 67) (checkpoint_msg (5 + 67)) = checkpoint_msg (6 + 67) := by decide

theorem checkpoint_step_d68 :
    outerMsg (5 + 68) (checkpoint_msg (5 + 68)) = checkpoint_msg (6 + 68) := by decide

theorem checkpoint_step_d69 :
    outerMsg (5 + 69) (checkpoint_msg (5 + 69)) = checkpoint_msg (6 + 69) := by decide

theorem checkpoint_step_d70 :
    outerMsg (5 + 70) (checkpoint_msg (5 + 70)) = checkpoint_msg (6 + 70) := by decide

theorem checkpoint_step_d71 :
    outerMsg (5 + 71) (checkpoint_msg (5 + 71)) = checkpoint_msg (6 + 71) := by decide

theorem checkpoint_step_d72 :
    outerMsg (5 + 72) (checkpoint_msg (5 + 72)) = checkpoint_msg (6 + 72) := by decide

theorem checkpoint_step_d73 :
    outerMsg (5 + 73) (checkpoint_msg (5 + 73)) = checkpoint_msg (6 + 73) := by decide

theorem checkpoint_step_d74 :
    outerMsg (5 + 74) (checkpoint_msg (5 + 74)) = checkpoint_msg (6 + 74) := by decide

theorem checkpoint_step_d75 :
    outerMsg (5 + 75) (checkpoint_msg (5 + 75)) = checkpoint_msg (6 + 75) := by decide

theorem checkpoint_step_d76 :
    outerMsg (5 + 76) (checkpoint_msg (5 + 76)) = checkpoint_msg (6 + 76) := by decide

theorem checkpoint_step_d77 :
    outerMsg (5 + 77) (checkpoint_msg (5 + 77)) = checkpoint_msg (6 + 77) := by decide

theorem checkpoint_step_d78 :
    outerMsg (5 + 78) (checkpoint_msg (5 + 78)) = checkpoint_msg (6 + 78) := by decide

theorem checkpoint_step_d79 :
    outerMsg (5 + 79) (checkpoint_msg (5 + 79)) = checkpoint_msg (6 + 79) := by decide

theorem checkpoint_step_d80 :
    outerMsg (5 + 80) (checkpoint_msg (5 + 80)) = checkpoint_msg (6 + 80) := by decide

theorem checkpoint_step_d81 :
    outerMsg (5 + 81) (checkpoint_msg (5 + 81)) = checkpoint_msg (6 + 81) := by decide

theorem checkpoint_step_d82 :
    outerMsg (5 + 82) (checkpoint_msg (5 + 82)) = checkpoint_msg (6 + 82) := by decide

theorem checkpoint_step_d83 :
    outerMsg (5 + 83) (checkpoint_msg (5 + 83)) = checkpoint_msg (6 + 83) := by decide

theorem checkpoint_step_d84 :
    outerMsg (5 + 84) (checkpoint_msg (5 + 84)) = checkpoint_msg (6 + 84) := by decide

theorem checkpoint_step_d85 :
    outerMsg (5 + 85) (checkpoint_msg (5 + 85)) = checkpoint_msg (6 + 85) := by decide

theorem checkpoint_step_d86 :
    outerMsg (5 + 86) (checkpoint_msg (5 + 86)) = checkpoint_msg (6 + 86) := by decide

theorem checkpoint_step_d87 :
    outerMsg (5 + 87) (checkpoint_msg (5 + 87)) = checkpoint_msg (6 + 87) := by decide

theorem checkpoint_step_d88 :
    outerMsg (5 + 88) (checkpoint_msg (5 + 88)) = checkpoint_msg (6 + 88) := by decide

theorem checkpoint_step_d89 :
    outerMsg (5 + 89) (checkpoint_msg (5 + 89)) = checkpoint_msg (6 + 89) := by decide

theorem checkpoint_step_d90 :
    outerMsg (5 + 90) (checkpoint_msg (5 + 90)) = checkpoint_msg (6 + 90) := by decide

theorem checkpoint_step_d91 :
    outerMsg (5 + 91) (checkpoint_msg (5 + 91)) = checkpoint_msg (6 + 91) := by decide

theorem checkpoint_step_d92 :
    outerMsg (5 + 92) (checkpoint_msg (5 + 92)) = checkpoint_msg (6 + 92) := by decide

theorem checkpoint_step_d93 :
    outerMsg (5 + 93) (checkpoint_msg (5 + 93)) = checkpoint_msg (6 + 93) := by decide

theorem checkpoint_step_d94 :
    outerMsg (5 + 94) (checkpoint_msg (5 + 94)) = checkpoint_msg (6 + 94) := by decide

theorem checkpoint_step_d95 :
    outerMsg (5 + 95) (checkpoint_msg (5 + 95)) = checkpoint_msg (6 + 95) := by decide

theorem checkpoint_step_d96 :
    outerMsg (5 + 96) (checkpoint_msg (5 + 96)) = checkpoint_msg (6 + 96) := by decide

theorem checkpoint_step_d97 :
    outerMsg (5 + 97) (checkpoint_msg (5 + 97)) = checkpoint_msg (6 + 97) := by decide

theorem checkpoint_step_d98 :
    outerMsg (5 + 98) (checkpoint_msg (5 + 98)) = checkpoint_msg (6 + 98) := by decide

theorem checkpoint_step_d99 :
    outerMsg (5 + 99) (checkpoint_msg (5 + 99)) = checkpoint_msg (6 + 99) := by decide

theorem checkpoint_step_d100 :
    outerMsg (5 + 100) (checkpoint_msg (5 + 100)) = checkpoint_msg (6 + 100) := by decide

theorem checkpoint_step_d101 :
    outerMsg (5 + 101) (checkpoint_msg (5 + 101)) = checkpoint_msg (6 + 101) := by decide

theorem checkpoint_step_d102 :
    outerMsg (5 + 102) (checkpoint_msg (5 + 102)) = checkpoint_msg (6 + 102) := by decide

theorem checkpoint_step_d103 :
    outerMsg (5 + 103) (checkpoint_msg (5 + 103)) = checkpoint_msg (6 + 103) := by decide

theorem checkpoint_step_d104 :
    outerMsg (5 + 104) (checkpoint_msg (5 + 104)) = checkpoint_msg (6 + 104) := by decide

theorem checkpoint_step_d105 :
    outerMsg (5 + 105) (checkpoint_msg (5 + 105)) = checkpoint_msg (6 + 105) := by decide

theorem checkpoint_step : ∀ d < 106,
    outerMsg (5 + d) (checkpoint_msg (5 + d)) = checkpoint_msg (6 + d) := by
  intro d hd
  match d with
  | 0 => exact checkpoint_step_d0
  | 1 => exact checkpoint_step_d1
  | 2 => exact checkpoint_step_d2
  | 3 => exact checkpoint_step_d3
  | 4 => exact checkpoint_step_d4
  | 5 => exact checkpoint_step_d5
  | 6 => exact checkpoint_step_d6
  | 7 => exact checkpoint_step_d7
  | 8 => exact checkpoint_step_d8
  | 9 => exact checkpoint_step_d9
  | 10 => exact checkpoint_step_d10
  | 11 => exact checkpoint_step_d11
  | 12 => exact checkpoint_step_d12
  | 13 => exact checkpoint_step_d13
  | 14 => exact checkpoint_step_d14
  | 15 => exact checkpoint_step_d15
  | 16 => exact checkpoint_step_d16
  | 17 => exact checkpoint_step_d17
  | 18 => exact checkpoint_step_d18
  | 19 => exact checkpoint_step_d19
  | 20 => exact checkpoint_step_d20
  | 21 => exact checkpoint_step_d21
  | 22 => exact checkpoint_step_d22
  | 23 => exact checkpoint_step_d23
  | 24 => exact checkpoint_step_d24
  | 25 => exact checkpoint_step_d25
  | 26 => exact checkpoint_step_d26
  | 27 => exact checkpoint_step_d27
  | 28 => exact checkpoint_step_d28
  | 29 => exact checkpoint_step_d29
  | 30 => exact checkpoint_step_d30
  | 31 => exact checkpoint_step_d31
  | 32 => exact checkpoint_step_d32
  | 33 => exact checkpoint_step_d33
  | 34 => exact checkpoint_step_d34
  | 35 => exact checkpoint_step_d35
  | 36 => exact checkpoint_step_d36
  | 37 => exact checkpoint_step_d37
  | 38 => exact checkpoint_step_d38
  | 39 => exact checkpoint_step_d39
  | 40 => exact checkpoint_step_d40
  | 41 => exact checkpoint_step_d41
  | 42 => exact checkpoint_step_d42
  | 43 => exact checkpoint_step_d43
  | 44 => exact checkpoint_step_d44
  | 45 => exact checkpoint_step_d45
  | 46 => exact checkpoint_step_d46
  | 47 => exact checkpoint_step_d47
  | 48 => exact checkpoint_step_d48
  | 49 => exact checkpoint_step_d49
  | 50 => exact checkpoint_step_d50
  | 51 => exact checkpoint_step_d51
  | 52 => exact checkpoint_step_d52
  | 53 => exact checkpoint_step_d53
  | 54 => exact checkpoint_step_d54
  | 55 => exact checkpoint_step_d55
  | 56 => exact checkpoint_step_d56
  | 57 => exact checkpoint_step_d57
  | 58 => exact checkpoint_step_d58
  | 59 => exact checkpoint_step_d59
  | 60 => exact checkpoint_step_d60
  | 61 => exact checkpoint_step_d61
  | 62 => exact checkpoint_step_d62
  | 63 => exact checkpoint_step_d63
  | 64 => exact checkpoint_step_d64
  | 65 => exact checkpoint_step_d65
  | 66 => exact checkpoint_step_d66
  | 67 => exact checkpoint_step_d67
  | 68 => exact checkpoint_step_d68
  | 69 => exact checkpoint_step_d69
  | 70 => exact checkpoint_step_d70
  | 71 => exact checkpoint_step_d71
  | 72 => exact checkpoint_step_d72
  | 73 => exact checkpoint_step_d73
  | 74 => exact checkpoint_step_d74
  | 75 => exact checkpoint_step_d75
  | 76 => exact checkpoint_step_d76
  | 77 => exact checkpoint_step_d77
  | 78 => exact checkpoint_step_d78
  | 79 => exact checkpoint_step_d79
  | 80 => exact checkpoint_step_d80
  | 81 => exact checkpoint_step_d81
  | 82 => exact checkpoint_step_d82
  | 83 => exact checkpoint_step_d83
  | 84 => exact checkpoint_step_d84
  | 85 => exact checkpoint_step_d85
  | 86 => exact checkpoint_step_d86
  | 87 => exact checkpoint_step_d87
  | 88 => exact checkpoint_step_d88
  | 89 => exact checkpoint_step_d89
  | 90 => exact checkpoint_step_d90
  | 91 => exact checkpoint_step_d91
  | 92 => exact checkpoint_step_d92
  | 93 => exact checkpoint_step_d93
  | 94 => exact checkpoint_step_d94
  | 95 => exact checkpoint_step_d95
  | 96 => exact checkpoint_step_d96
  | 97 => exact checkpoint_step_d97
  | 98 => exact checkpoint_step_d98
  | 99 => exact checkpoint_step_d99
  | 100 => exact checkpoint_step_d100
  | 101 => exact checkpoint_step_d101
  | 102 => exact checkpoint_step_d102
  | 103 => exact checkpoint_step_d103
  | 104 => exact checkpoint_step_d104
  | 105 => exact checkpoint_step_d105
  | n + 106 => exact absurd hd (by omega)

theorem lookup_append_of_some {l1 l2 : List (Nat × Nat)} {a v : Nat}
    (h : List.lookup a l1 = some v) : List.lookup a (l1 ++ l2) = some v := by
  induction l1 with
  | nil => simp at h
  | cons p rest ih =>
    rcases p with ⟨k, w⟩
    rw [List.cons_append]
    rw [List.lookup_cons] at h ⊢
    cases hak : a == k
    · simp only [hak] at h ⊢
      exact ih h
    · simp only [hak] at h ⊢
      exact h

theorem lookup_buildEntries_descent (key v : Nat) : ∀ d : Nat, 5 + d ≤ 111 →
    List.lookup key (buildEntries (List.range' (5 + d) (112 - (5 + d))) (checkpoint_msg (5 + d))) = some v →
    List.lookup key (buildEntries (List.range' 5 107) (checkpoint_msg 5)) = some v := by
  intro d
  induction d with
  | zero => intro _ h; simpa using h
  | succ n ih =>
    intro hle h
    apply ih (by omega)
    have hrange : List.range' (5 + n) (112 - (5 + n)) =
        (5 + n) :: List.range' (5 + n + 1) (112 - (5 + n + 1)) := by
      rw [show 112 - (5 + n) = (112 - (5 + n + 1)) + 1 from by omega, List.range'_succ]
    rw [hrange, buildEntries, checkpoint_step n (by omega)]
    apply lookup_append_of_some
    rw [show 5 + n + 1 = 5 + (n + 1) from by omega,
      show 6 + n = 5 + (n + 1) from by omega] at *
    exact h

set_option maxRecDepth 20000 in
set_option maxHeartbeats 2000000 in
theorem base_lookup_one :
    List.lookup 1 (buildEntries (List.range' 110 2) (checkpoint_msg 110)) = some 28526 := by
  decide

set_option maxRecDepth 20000 in
set_option maxHeartbeats 2000000 in
theorem base_lookup_fortyeight :
    List.lookup 48 (buildEntries (List.range' 105 7) (checkpoint_msg 105)) = some 27497 := by
  decide

theorem checkpoint_msg_five : checkpoint_msg 5 = List.replicate MODES_LONG_MSG_BYTES 0 := by
  decide

/-- Syndrome `1` is bound to `28526 = 110 ||| (111 <<< 8)` in the bit-error
table: the newest insertion with that key is the `(i, j) = (110, 111)` pair. -/
theorem tbl_lookup_one : List.lookup 1 modes_init_error_info = some 28526 := by
  rw [init_error_info_eq, ← checkpoint_msg_five]
  exact lookup_buildEntries_descent 1 28526 105 (by omega) base_lookup_one

/-- Syndrome `48` is bound to `27497 = 105 ||| (107 <<< 8)` in the bit-error
table. -/
theorem tbl_lookup_fortyeight : List.lookup 48 modes_init_error_info = some 27497 := by
  rw [init_error_info_eq, ← checkpoint_msg_five]
  exact lookup_buildEntries_descent 48 27497 100 (by omega) base_lookup_fortyeight

/-- The `some` branch of `fix_bit_errors`, as a function of the table value. -/
def fix_apply (pei : Nat) (msg : List Nat) : Nat × List Nat :=
  let offset := MODES_LONG_MSG_BITS - msg.length * 8
  let a := pei &&& 0xff
  let b := (pei >>> 8) &&& 0xff
  if b ≠ 0 then
    if offset > a then (0, msg)
    else if offset > b then (0, msg)
    else
      let bitpos0 := a - offset
      let bitpos1 := b - offset
      let msg := msg.set (bitpos0 >>> 3) (msg.getD (bitpos0 >>> 3) 0 ^^^ (1 <<< (7 - (bitpos0 &&& 7))))
      let msg := msg.set (bitpos1 >>> 3) (msg.getD (bitpos1 >>> 3) 0 ^^^ (1 <<< (7 - (bitpos1 &&& 7))))
      (2, msg)
  else
    if offset > a then (0, msg)
    else
      let bitpos0 := a - offset
      let msg := msg.set (bitpos0 >>> 3) (msg.getD (bitpos0 >>> 3) 0 ^^^ (1 <<< (7 - (bitpos0 &&& 7))))
      (1, msg)

theorem fix_bit_errors_lookup_some (msg : List Nat) (tbl : List (Nat × Nat)) (pei : Nat)
    (hl : List.lookup (modes_checksum msg) tbl = some pei) :
    fix_bit_errors msg tbl = fix_apply pei msg := by
  simp only [fix_bit_errors, fix_apply]
  rw [hl]

theorem fix_bit_errors_lookup_none (msg : List Nat) (tbl : List (Nat × Nat))
    (hl : List.lookup (modes_checksum msg) tbl = none) :
    fix_bit_errors msg tbl = (0, msg) := by
  simp only [fix_bit_errors]
  rw [hl]

/-- C1: flipping bit 111 (MSB-first) of the all-zero 14-byte message and
running `fix_bit_errors` over the table built by `modes_init_error_info`
does not return `1` and does not restore the all-zero message: the broken
table build (`&` instead of `|`/`& !mask`) maps syndrome `1` to the pair
`(110, 111)`, so the repair flips bits 110 and 111 instead, returns `2`,
and leaves bit 110 set. -/
theorem fix_bit_errors_single_flip_111 :
    fix_bit_errors [0, 0, 0, 0, 0, 0, 0, 0, 0, 0, 0, 0, 0, 1] modes_init_error_info
        = (2, [0, 0, 0, 0, 0, 0, 0, 0, 0, 0, 0, 0, 0, 2]) ∧
      fix_bit_errors [0, 0, 0, 0, 0, 0, 0, 0, 0, 0, 0, 0, 0, 1] modes_init_error_info
        ≠ (1, List.replicate 14 0) := by
  have hl : List.lookup
      (modes_checksum [0, 0, 0, 0, 0, 0, 0, 0, 0, 0, 0, 0, 0, 1]) modes_init_error_info
      = some 28526 := by
    rw [show modes_checksum [0, 0, 0, 0, 0, 0, 0, 0, 0, 0, 0, 0, 0, 1] = 1 from by decide]
    exact tbl_lookup_one
  have h := fix_bit_errors_lookup_some _ _ _ hl
  rw [show fix_apply 28526 [0, 0, 0, 0, 0, 0, 0, 0, 0, 0, 0, 0, 0, 1]
      = (2, [0, 0, 0, 0, 0, 0, 0, 0, 0, 0, 0, 0, 0, 2]) from by decide] at h
  exact ⟨h, by rw [h]; decide⟩

/-! ## Frame decoder (`decode.rs`, duplicated verbatim in `main.rs`) -/

/-- `stream.rs`: `ProcessStreamResult` (demodulated candidate before decoding).
`f32` fields are modelled over `ℚ`, raw samples over `ℤ`. -/
structure ProcessStreamResult where
  snr : ℚ
  msg : List Nat
  samples : List Int
  ndx : Nat
  thetas : List ℚ
  amplitudes : List ℚ
  pipe_ndx : Nat
deriving DecidableEq

/-- `decode.rs`: `MessageCommon`. -/
structure MessageCommon where
  msg : List Nat
  samples : List Int
  ndx : Nat
  snr : ℚ
  thetas : List ℚ
  amplitudes : List ℚ
  crc_ok : Bool
  pipe_ndx : Nat
deriving DecidableEq

/-- `decode.rs`: `DfHeader1`. -/
structure DfHeader1 where
  capability : Nat
  addr : Nat
  metype : Nat
  mesub : Nat
  fs : Nat
  identity : Nat
deriving DecidableEq

/-- `decode.rs`: `MessageSpecific`.  The `f32` `velocity`/`heading` fields of
the ground-referenced velocity variant come from `sqrt`/`atan2` and are not
used by any verified claim; they are omitted from the embedding, which keeps
the integer fields they are derived from. -/
inductive MessageSpecific where
  | AircraftIdenAndCat (hdr : DfHeader1) (aircraft_type : Nat) (flight : List Char)
  | SurfacePositionMessage (hdr : DfHeader1) (movement ground_track : Nat)
      (f_flag t_flag : Bool) (raw_lat raw_lon : Nat)
  | AirbornePositionMessage (hdr : DfHeader1) (f_flag t_flag : Bool)
      (altitude : ℚ) (raw_lat raw_lon : Nat)
  | AirborneVelocityMessage (hdr : DfHeader1) (ew_dir ew_velocity ns_dir ns_velocity
      vert_rate_source vert_rate_sign vert_rate : Nat)
  | AirborneVelocityMessageShort (hdr : DfHeader1) (heading : ℚ)
  | Other
deriving DecidableEq

/-- `decode.rs`: `Message`. -/
structure Message where
  common : MessageCommon
  specific : MessageSpecific
deriving DecidableEq

/-- `decode.rs`: `MessageErrorReason`. -/
inductive MessageErrorReason where
  | BitErrors
deriving DecidableEq

/-- `decode.rs`: `decode_ac12_field`. -/
def decode_ac12_field (msg : List Nat) : ℚ :=
  if msg.getD 5 0 &&& 1 = 1 then
    let n := ((msg.getD 5 0 >>> 1) <<< 4) ||| ((msg.getD 6 0 &&& 0xf0) >>> 4)
    (n : ℚ) * 25 - 1000
  else 0

/-- `decode.rs`: `was_addr_recently_seen`.  The seen map is a function
`addr → Option (seconds)`; the age test is `(now - t) < 60`. -/
def was_addr_recently_seen (addr : Nat) (seen : Nat → Option Nat) (now : Nat) : Bool :=
  match seen addr with
  | some time_seen => if now - time_seen < 60 then true else false
  | none => false

/-- The address recovered inside `brute_force_ap` by XORing the computed CRC
into the last three message bytes. -/
def brute_force_addr (msg : List Nat) : Nat :=
  let crc := modes_compute_crc msg
  let last_byte := msg.length - 1
  let aux0 := msg.getD (last_byte - 0) 0 ^^^ (crc &&& 0xff)
  let aux1 := msg.getD (last_byte - 1) 0 ^^^ ((crc >>> 8) &&& 0xff)
  let aux2 := msg.getD (last_byte - 2) 0 ^^^ ((crc >>> 16) &&& 0xff)
  aux0 ||| (aux1 <<< 8) ||| (aux2 <<< 16)

/-- `decode.rs`: `brute_force_ap`. -/
def brute_force_ap (msg : List Nat) (seen : Nat → Option Nat) (now : Nat) : Bool :=
  let msgtype := msg.getD 0 0 >>> 3
  if msgtype = 0 ∨ msgtype = 4 ∨ msgtype = 5 ∨ msgtype = 16 ∨ msgtype = 20 ∨
      msgtype = 21 ∨ msgtype = 24 then
    was_addr_recently_seen (brute_force_addr msg) seen now
  else
    false

/-- `decode.rs`: the AIS charset used for flight identifiers. -/
def ais_charset : List Char :=
  "?ABCDEFGHIJKLMNOPQRSTUVWXYZ????? ???????????????0123456789??????".toList

/-- `decode.rs`: the squawk (`identity`) Gillham packing in `process_result`. -/
def squawk_identity (msg : List Nat) : Nat :=
  let a := ((msg.getD 3 0 &&& 0x80) >>> 5) ||| (msg.getD 2 0 &&& 0x02) |||
    ((msg.getD 2 0 &&& 0x08) >>> 3)
  let b := ((msg.getD 3 0 &&& 0x02) <<< 1) ||| ((msg.getD 3 0 &&& 0x08) >>> 2) |||
    ((msg.getD 3 0 &&& 0x20) >>> 5)
  let c := ((msg.getD 2 0 &&& 0x01) <<< 2) ||| ((msg.getD 2 0 &&& 0x04) >>> 1) |||
    ((msg.getD 2 0 &&& 0x10) >>> 4)
  let d := ((msg.getD 3 0 &&& 0x01) <<< 2) ||| ((msg.getD 3 0 &&& 0x04) >>> 1) |||
    ((msg.getD 3 0 &&& 0x10) >>> 4)
  a * 1000 + b * 100 + c * 10 + d

/-- `decode.rs`: the `match msgtype` tail of `process_result` building the
`MessageSpecific` payload (`msgtype` is the value computed before any bit
repair, exactly as in the source). -/
def decode_specific (msg : List Nat) (msgtype : Nat) : MessageSpecific :=
  if msgtype = 17 ∨ msgtype = 18 then
    let hdr : DfHeader1 :=
      { capability := msg.getD 0 0 &&& 7
        addr := (msg.getD 1 0 <<< 16) ||| (msg.getD 2 0 <<< 8) ||| msg.getD 3 0
        metype := msg.getD 4 0 >>> 3
        mesub := msg.getD 4 0 &&& 7
        fs := msg.getD 0 0 &&& 7
        identity := squawk_identity msg }
    let metype := msg.getD 4 0 >>> 3
    let mesub := msg.getD 4 0 &&& 7
    if 1 ≤ metype ∧ metype ≤ 4 then
      .AircraftIdenAndCat hdr (metype - 1)
        [ais_charset.getD (msg.getD 5 0 >>> 2) '?',
         ais_charset.getD (((msg.getD 5 0 &&& 3) <<< 4) ||| (msg.getD 6 0 >>> 4)) '?',
         ais_charset.getD (((msg.getD 6 0 &&& 15) <<< 2) ||| (msg.getD 7 0 >>> 6)) '?',
         ais_charset.getD (msg.getD 7 0 &&& 63) '?',
         ais_charset.getD (msg.getD 8 0 >>> 2) '?',
         ais_charset.getD (((msg.getD 8 0 &&& 3) <<< 4) ||| (msg.getD 9 0 >>> 4)) '?',
         ais_charset.getD (((msg.getD 9 0 &&& 15) <<< 2) ||| (msg.getD 10 0 >>> 6)) '?',
         ais_charset.getD (msg.getD 10 0 &&& 63) '?']
    else if 5 ≤ metype ∧ metype ≤ 8 then
      .SurfacePositionMessage hdr
        (((msg.getD 4 0 &&& 0x07) <<< 4) ||| (msg.getD 5 0 >>> 4))
        (((msg.getD 5 0 &&& 0x07) <<< 4) ||| (msg.getD 6 0 >>> 4))
        ((msg.getD 6 0 >>> 2) &&& 1 == 1)
        ((msg.getD 6 0 >>> 3) &&& 1 == 1)
        (((msg.getD 6 0 &&& 3) <<< 15) ||| (msg.getD 7 0 <<< 7) ||| (msg.getD 8 0 >>> 1))
        (((msg.getD 8 0 &&& 1) <<< 16) ||| (msg.getD 9 0 <<< 8) ||| msg.getD 10 0)
    else if 9 ≤ metype ∧ metype ≤ 18 then
      .AirbornePositionMessage hdr
        ((msg.getD 6 0 >>> 2) &&& 1 == 1)
        ((msg.getD 6 0 >>> 3) &&& 1 == 1)
        (decode_ac12_field msg)
        (((msg.getD 6 0 &&& 3) <<< 15) ||| (msg.getD 7 0 <<< 7) ||| (msg.getD 8 0 >>> 1))
        (((msg.getD 8 0 &&& 1) <<< 16) ||| (msg.getD 9 0 <<< 8) ||| msg.getD 10 0)
    else if metype = 19 ∧ 1 ≤ mesub ∧ mesub ≤ 4 then
      if mesub = 1 ∨ mesub = 2 then
        .AirborneVelocityMessage hdr
          ((msg.getD 5 0 &&& 4) >>> 2)
          (((msg.getD 5 0 &&& 3) <<< 8) ||| msg.getD 6 0)
          ((msg.getD 7 0 &&& 0x80) >>> 7)
          (((msg.getD 7 0 &&& 0x7f) <<< 3) ||| ((msg.getD 8 0 &&& 0xe0) >>> 5))
          ((msg.getD 8 0 &&& 0x10) >>> 4)
          ((msg.getD 8 0 &&& 0x8) >>> 3)
          (((msg.getD 8 0 &&& 7) <<< 6) ||| ((msg.getD 9 0 &&& 0xfc) >>> 2))
      else if mesub = 3 ∨ mesub = 4 then
        .AirborneVelocityMessageShort hdr
          ((360 / 128 : ℚ) * ((((msg.getD 5 0 &&& 3) <<< 5) ||| (msg.getD 6 0 >>> 3) : Nat) : ℚ))
      else
        .Other
    else
      .Other
  else
    .Other

/-- `decode.rs`: the truncation at the top of `process_result` — a short
frame (bit 4 of the DF clear) is popped down to 7 bytes. -/
def truncated_msg (msg : List Nat) : List Nat :=
  if ((msg.getD 0 0 >>> 3) &&& 0x10) == 0x10 then msg else msg.take MODES_SHORT_MSG_BYTES

/-- `decode.rs`: the part of `process_result` after CRC repair: address
extraction, AP brute force or seen-map update with the DF11 relaxation, the
final accept/reject, and the payload decode.  `msgtype` is the value the
source computed before the repair; `msg` is the (possibly repaired) message.
Returns the result together with the (possibly updated) seen map. -/
def process_result_core (result : ProcessStreamResult) (msg : List Nat) (msgtype : Nat)
    (crc_syndrome : Nat) (crc_ok : Bool) (nfixed : Nat) (seen : Nat → Option Nat) (now : Nat) :
    Except MessageErrorReason Message × (Nat → Option Nat) :=
  let addr := (msg.getD 1 0 <<< 16) ||| (msg.getD 2 0 <<< 8) ||| msg.getD 3 0
  let st :=
    if msgtype ≠ 11 ∧ msgtype ≠ 17 ∧ msgtype ≠ 18 then
      (brute_force_ap msg seen now, seen)
    else
      let seen1 := if crc_ok ∧ nfixed = 0 then
        (fun a => if a = addr then some now else seen a) else seen
      let crc_ok1 :=
        if msgtype = 11 ∧ crc_ok = false ∧ crc_syndrome < 80 then
          (if was_addr_recently_seen addr seen1 now then true else crc_ok)
        else crc_ok
      (crc_ok1, seen1)
  if st.1 = false then
    (Except.error MessageErrorReason.BitErrors, st.2)
  else
    (Except.ok
      { common :=
          { msg := msg
            ndx := result.ndx
            snr := result.snr
            thetas := result.thetas
            samples := result.samples
            amplitudes := result.amplitudes
            crc_ok := st.1
            pipe_ndx := result.pipe_ndx }
        specific := decode_specific msg msgtype }, st.2)

/-- `decode.rs`: `process_result`.  Truncates short frames, computes the
syndrome, attempts `fix_bit_errors` for DF 11/17/18, and hands over to
`process_result_core`. -/
def process_result (result : ProcessStreamResult) (bit_error_table : List (Nat × Nat))
    (seen : Nat → Option Nat) (now : Nat) :
    Except MessageErrorReason Message × (Nat → Option Nat) :=
  let msg := truncated_msg result.msg
  let msgtype := msg.getD 0 0 >>> 3
  let crc_syndrome := modes_checksum msg
  let crc_ok := crc_syndrome == 0
  if crc_ok = false ∧ (msgtype = 11 ∨ msgtype = 17 ∨ msgtype = 18) then
    let fx := fix_bit_errors msg bit_error_table
    if fx.1 = 0 then
      (Except.error MessageErrorReason.BitErrors, seen)
    else
      process_result_core result fx.2 msgtype (modes_checksum fx.2)
        (modes_checksum fx.2 == 0) fx.1 seen now
  else
    process_result_core result msg msgtype crc_syndrome crc_ok 0 seen now

theorem getD_zero_take (l : List Nat) (n : Nat) (hn : 0 < n) :
    (l.take n).getD 0 0 = l.getD 0 0 := by
  cases l with
  | nil => simp
  | cons a t =>
    cases n with
    | zero => omega
    | succ m => simp [List.take_succ_cons]

theorem truncated_msg_getD_zero (m : List Nat) :
    (truncated_msg m).getD 0 0 = m.getD 0 0 := by
  unfold truncated_msg
  split
  · rfl
  · exact getD_zero_take m MODES_SHORT_MSG_BYTES (by decide)

/-- `process_result` without a repair attempt reduces to the core. -/
theorem process_result_nofix (r : ProcessStreamResult) (tbl : List (Nat × Nat))
    (seen : Nat → Option Nat) (now : Nat)
    (h : ¬((modes_checksum (truncated_msg r.msg) == 0) = false ∧
      ((truncated_msg r.msg).getD 0 0 >>> 3 = 11 ∨ (truncated_msg r.msg).getD 0 0 >>> 3 = 17 ∨
        (truncated_msg r.msg).getD 0 0 >>> 3 = 18))) :
    process_result r tbl seen now =
      process_result_core r (truncated_msg r.msg) ((truncated_msg r.msg).getD 0 0 >>> 3)
        (modes_checksum (truncated_msg r.msg)) (modes_checksum (truncated_msg r.msg) == 0)
        0 seen now := by
  simp only [process_result]
  rw [if_neg h]

/-- `process_result` after a successful repair reduces to the core on the
repaired message, keeping the pre-repair `msgtype`. -/
theorem process_result_fixed (r : ProcessStreamResult) (tbl : List (Nat × Nat))
    (seen : Nat → Option Nat) (now : Nat) (n : Nat) (msg1 : List Nat)
    (hc : (modes_checksum (truncated_msg r.msg) == 0) = false)
    (ht : (truncated_msg r.msg).getD 0 0 >>> 3 = 11 ∨ (truncated_msg r.msg).getD 0 0 >>> 3 = 17 ∨
      (truncated_msg r.msg).getD 0 0 >>> 3 = 18)
    (hfix : fix_bit_errors (truncated_msg r.msg) tbl = (n, msg1))
    (hn : n ≠ 0) :
    process_result r tbl seen now =
      process_result_core r msg1 ((truncated_msg r.msg).getD 0 0 >>> 3)
        (modes_checksum msg1) (modes_checksum msg1 == 0) n seen now := by
  simp only [process_result]
  rw [if_pos ⟨hc, ht⟩, hfix]
  rw [if_neg (show ¬((n, msg1).1 = 0) from hn)]

theorem decode_specific_not_df17_18 (msg : List Nat) (msgtype : Nat)
    (h : ¬(msgtype = 17 ∨ msgtype = 18)) : decode_specific msg msgtype = .Other := by
  simp only [decode_specific]
  rw [if_neg h]

/-- The core on an AP-coded frame: accept with `crc_ok` and `Other` exactly
when the brute-forced address was recently seen, else reject. -/
theorem process_result_core_ap (r : ProcessStreamResult) (msg : List Nat) (msgtype : Nat)
    (crc_syndrome : Nat) (crc_ok : Bool) (seen : Nat → Option Nat) (now : Nat)
    (hset : msgtype = 0 ∨ msgtype = 4 ∨ msgtype = 5 ∨ msgtype = 16 ∨ msgtype = 20 ∨
      msgtype = 21 ∨ msgtype = 24)
    (hmsg0 : msg.getD 0 0 >>> 3 = msgtype) :
    process_result_core r msg msgtype crc_syndrome crc_ok 0 seen now =
      if was_addr_recently_seen (brute_force_addr msg) seen now then
        (Except.ok
          { common :=
              { msg := msg, ndx := r.ndx, snr := r.snr, thetas := r.thetas,
                samples := r.samples, amplitudes := r.amplitudes, crc_ok := true,
                pipe_ndx := r.pipe_ndx }
            specific := MessageSpecific.Other }, seen)
      else (Except.error MessageErrorReason.BitErrors, seen) := by
  have hne : msgtype ≠ 11 ∧ msgtype ≠ 17 ∧ msgtype ≠ 18 := by
    rcases hset with h | h | h | h | h | h | h <;> omega
  have hother : decode_specific msg msgtype = .Other :=
    decode_specific_not_df17_18 msg msgtype (by omega)
  simp only [process_result_core, brute_force_ap, hmsg0]
  rw [if_pos hne, if_pos hset]
  cases hw : was_addr_recently_seen (brute_force_addr msg) seen now
  · simp
  · simp [hother]

/-- C4: a candidate whose DF (top 5 bits of byte 0) lies in
`{0, 4, 5, 16, 20, 21, 24}` is accepted — `Ok` with `crc_ok = true` and
classified `Other` — exactly when the address obtained by XORing the
computed CRC into the last three bytes is in the seen map with age under
60 seconds; otherwise `process_result` returns `Err(BitErrors)`. -/
theorem process_result_ap_accept_iff (r : ProcessStreamResult) (tbl : List (Nat × Nat))
    (seen : Nat → Option Nat) (now : Nat)
    (hdf : r.msg.getD 0 0 >>> 3 = 0 ∨ r.msg.getD 0 0 >>> 3 = 4 ∨ r.msg.getD 0 0 >>> 3 = 5 ∨
      r.msg.getD 0 0 >>> 3 = 16 ∨ r.msg.getD 0 0 >>> 3 = 20 ∨ r.msg.getD 0 0 >>> 3 = 21 ∨
      r.msg.getD 0 0 >>> 3 = 24) :
    (process_result r tbl seen now =
        (Except.ok
          { common :=
              { msg := truncated_msg r.msg, ndx := r.ndx, snr := r.snr, thetas := r.thetas,
                samples := r.samples, amplitudes := r.amplitudes, crc_ok := true,
                pipe_ndx := r.pipe_ndx }
            specific := MessageSpecific.Other }, seen)
      ↔ was_addr_recently_seen (brute_force_addr (truncated_msg r.msg)) seen now = true) ∧
    (was_addr_recently_seen (brute_force_addr (truncated_msg r.msg)) seen now = false →
      process_result r tbl seen now = (Except.error MessageErrorReason.BitErrors, seen)) := by
  have h0 : (truncated_msg r.msg).getD 0 0 >>> 3 = r.msg.getD 0 0 >>> 3 := by
    rw [truncated_msg_getD_zero]
  have hset := hdf
  rw [← h0] at hset
  have hno : ¬((modes_checksum (truncated_msg r.msg) == 0) = false ∧
      ((truncated_msg r.msg).getD 0 0 >>> 3 = 11 ∨ (truncated_msg r.msg).getD 0 0 >>> 3 = 17 ∨
        (truncated_msg r.msg).getD 0 0 >>> 3 = 18)) := by
    rintro ⟨-, h2⟩
    rcases hset with h | h | h | h | h | h | h <;> omega
  rw [process_result_nofix r tbl seen now hno,
    process_result_core_ap r (truncated_msg r.msg) _ _ _ seen now hset rfl]
  cases hw : was_addr_recently_seen (brute_force_addr (truncated_msg r.msg)) seen now <;>
    simp [hw]

/-- Witness for C4: an all-zero DF0 candidate whose brute-forced address is
absent from the seen map is rejected. -/
theorem process_result_ap_accept_iff_witness :
    ((List.replicate 14 0 : List Nat).getD 0 0 >>> 3 = 0 ∨
      (List.replicate 14 0 : List Nat).getD 0 0 >>> 3 = 4 ∨
      (List.replicate 14 0 : List Nat).getD 0 0 >>> 3 = 5 ∨
      (List.replicate 14 0 : List Nat).getD 0 0 >>> 3 = 16 ∨
      (List.replicate 14 0 : List Nat).getD 0 0 >>> 3 = 20 ∨
      (List.replicate 14 0 : List Nat).getD 0 0 >>> 3 = 21 ∨
      (List.replicate 14 0 : List Nat).getD 0 0 >>> 3 = 24) ∧
    process_result
        { snr := 0, msg := List.replicate 14 0, samples := [], ndx := 0, thetas := [],
          amplitudes := [], pipe_ndx := 0 } [] (fun _ => none) 0 =
      (Except.error MessageErrorReason.BitErrors, fun _ => none) :=
  ⟨by decide,
    (process_result_ap_accept_iff
      { snr := 0, msg := List.replicate 14 0, samples := [], ndx := 0, thetas := [],
        amplitudes := [], pipe_ndx := 0 } [] (fun _ => none) 0 (by decide)).2 (by decide)⟩

/-- C5 (amended): a DF11 candidate with non-zero syndrome is accepted
through the relaxed rule only after `fix_bit_errors` repaired at least one
bit: if the repair succeeded but the recomputed syndrome is still non-zero
and below 80, and the repaired message address was recently seen, the
frame is accepted with `crc_ok = true` (and classified `Other`). -/
theorem process_result_df11_relaxed (r : ProcessStreamResult) (tbl : List (Nat × Nat))
    (seen : Nat → Option Nat) (now : Nat) (n : Nat) (msg1 : List Nat)
    (h11 : (truncated_msg r.msg).getD 0 0 >>> 3 = 11)
    (hsyn : (modes_checksum (truncated_msg r.msg) == 0) = false)
    (hfix : fix_bit_errors (truncated_msg r.msg) tbl = (n, msg1))
    (hn : n ≠ 0)
    (hsyn1 : modes_checksum msg1 ≠ 0)
    (hlt : modes_checksum msg1 < 80)
    (hseen : was_addr_recently_seen
      ((msg1.getD 1 0 <<< 16) ||| (msg1.getD 2 0 <<< 8) ||| msg1.getD 3 0) seen now = true) :
    process_result r tbl seen now =
      (Except.ok
        { common :=
            { msg := msg1, ndx := r.ndx, snr := r.snr, thetas := r.thetas,
              samples := r.samples, amplitudes := r.amplitudes, crc_ok := true,
              pipe_ndx := r.pipe_ndx }
          specific := MessageSpecific.Other }, seen) := by
  rw [process_result_fixed r tbl seen now n msg1 hsyn (Or.inl h11) hfix hn, h11]
  have hcrc : (modes_checksum msg1 == 0) = false := by
    simp [hsyn1]
  have hother : decode_specific msg1 11 = .Other :=
    decode_specific_not_df17_18 msg1 11 (by omega)
  have hseen2 : was_addr_recently_seen
      (msg1[1]?.getD 0 <<< 16 ||| msg1[2]?.getD 0 <<< 8 ||| msg1[3]?.getD 0) seen now = true := by
    simpa using hseen
  simp [process_result_core, hcrc, hother, hlt, hseen2]

/-- Witness for the amended C5: a DF11 frame with syndrome 1 over the
one-entry table `{1 ↦ (110, 111)}`; the repair flips two bits of the last
byte, the recomputed syndrome is `2 < 80`, the (unchanged) address
`0xABCDEF` is in the seen map, and the frame is accepted. -/
theorem process_result_df11_relaxed_witness :
    (truncated_msg [88, 171, 205, 239, 14, 98, 173, 0, 0, 0, 0, 0, 0, 0]).getD 0 0 >>> 3 = 11 ∧
    fix_bit_errors (truncated_msg [88, 171, 205, 239, 14, 98, 173, 0, 0, 0, 0, 0, 0, 0])
      [(1, 28526)] = (2, [88, 171, 205, 239, 14, 98, 174]) ∧
    modes_checksum [88, 171, 205, 239, 14, 98, 174] = 2 ∧
    process_result
        { snr := 0, msg := [88, 171, 205, 239, 14, 98, 173, 0, 0, 0, 0, 0, 0, 0], samples := [],
          ndx := 0, thetas := [], amplitudes := [], pipe_ndx := 0 }
        [(1, 28526)] (fun a => if a = 0xABCDEF then some 0 else none) 0 =
      (Except.ok
        { common :=
            { msg := [88, 171, 205, 239, 14, 98, 174], ndx := 0, snr := 0, thetas := [],
              samples := [], amplitudes := [], crc_ok := true, pipe_ndx := 0 }
          specific := MessageSpecific.Other }, fun a => if a = 0xABCDEF then some 0 else none) :=
  ⟨by decide, by decide, by decide,
    process_result_df11_relaxed
      { snr := 0, msg := [88, 171, 205, 239, 14, 98, 173, 0, 0, 0, 0, 0, 0, 0], samples := [],
        ndx := 0, thetas := [], amplitudes := [], pipe_ndx := 0 }
      [(1, 28526)] (fun a => if a = 0xABCDEF then some 0 else none) 0 2
      [88, 171, 205, 239, 14, 98, 174]
      (by decide) (by decide) (by decide) (by decide) (by decide) (by decide) (by decide)⟩

/-- C5 counterexample: a DF11 candidate whose syndrome is `48` — non-zero,
below 80 — and whose derived address `0xABCDEF` is in the seen map with age
under 60 s, yet `process_result` rejects it with `BitErrors`: the bit-error
table maps syndrome 48 to the pair `(105, 107)`, the repair flips two bits
of the last byte, and the recomputed syndrome `96` falls outside the `< 80`
relaxation window. -/
theorem process_result_df11_small_syndrome_rejected :
    modes_checksum [88, 171, 205, 239, 14, 98, 156] = 48 ∧
    (0 < 48 ∧ 48 < 80) ∧
    was_addr_recently_seen 0xABCDEF (fun a => if a = 0xABCDEF then some 0 else none) 0 = true ∧
    (process_result
        { snr := 0, msg := [88, 171, 205, 239, 14, 98, 156, 0, 0, 0, 0, 0, 0, 0], samples := [],
          ndx := 0, thetas := [], amplitudes := [], pipe_ndx := 0 }
        modes_init_error_info (fun a => if a = 0xABCDEF then some 0 else none) 0).1 =
      Except.error MessageErrorReason.BitErrors := by
  refine ⟨by decide, by decide, by decide, ?_⟩
  have htr : truncated_msg [88, 171, 205, 239, 14, 98, 156, 0, 0, 0, 0, 0, 0, 0] =
      [88, 171, 205, 239, 14, 98, 156] := by decide
  have hl : List.lookup (modes_checksum [88, 171, 205, 239, 14, 98, 156])
      modes_init_error_info = some 27497 := by
    rw [show modes_checksum [88, 171, 205, 239, 14, 98, 156] = 48 from by decide]
    exact tbl_lookup_fortyeight
  have hfix0 := fix_bit_errors_lookup_some _ _ _ hl
  rw [show fix_apply 27497 [88, 171, 205, 239, 14, 98, 156]
      = (2, [88, 171, 205, 239, 14, 98, 204]) from by decide] at hfix0
  have hfix : fix_bit_errors
      (truncated_msg [88, 171, 205, 239, 14, 98, 156, 0, 0, 0, 0, 0, 0, 0])
      modes_init_error_info = (2, [88, 171, 205, 239, 14, 98, 204]) := by
    rw [htr]; exact hfix0
  rw [process_result_fixed
    { snr := 0, msg := [88, 171, 205, 239, 14, 98, 156, 0, 0, 0, 0, 0, 0, 0], samples := [],
      ndx := 0, thetas := [], amplitudes := [], pipe_ndx := 0 }
    modes_init_error_info (fun a => if a = 0xABCDEF then some 0 else none) 0 2
    [88, 171, 205, 239, 14, 98, 204] (by decide) (by decide) hfix (by decide)]
  rw [htr]
  rfl

/-! ## Beamformer fast path vs general loop (`stream.rs`) -/

/-- `stream.rs`, `process_buffer_single_x2` loop body: scale a chunk of two
I/Q pairs, rotate the second stream — reusing the freshly assigned `bi`
when computing `bq`, exactly as the source does — sum, and return the
squared magnitude (the source takes `sqrt` of this value; squared
magnitudes compare identically since the magnitude is non-negative).
`bri`/`brq` stand for `thetas_b.cos()`/`thetas_b.sin()`; `f32` arithmetic
is modelled exactly over `ℚ`. -/
def x2_sample_magsq (bri brq amplitude_a amplitude_b : ℚ) (c0 c1 c2 c3 : Int) : ℚ :=
  let ai : ℚ := (c0 : ℚ) / 2049 * amplitude_a
  let aq : ℚ := (c1 : ℚ) / 2049 * amplitude_a
  let bi0 : ℚ := (c2 : ℚ) / 2049 * amplitude_b
  let bq0 : ℚ := (c3 : ℚ) / 2049 * amplitude_b
  let bi := bi0 * bri - bq0 * brq
  let bq := bi * brq + bq0 * bri
  let ei := ai + bi
  let eq := aq + bq
  ei * ei + eq * eq

/-- `stream.rs`, `process_buffer_single` general rotation loop for one
sample: start from the scaled reference stream and fold streams
`1 .. streams-1`, rotating each by its `(cos, sin)` pair from `riq` before
accumulating — here `bi`/`bq` are the unrotated values throughout, unlike
the `x2` fast path. -/
def general_sample (buffer : List Int) (x mul : Nat) (riq : List (ℚ × ℚ))
    (amplitudes : List ℚ) (streams : Nat) : ℚ × ℚ :=
  let ai : ℚ := ((buffer.getD (x * mul + 0) 0 : Int) : ℚ) / 2049 * amplitudes.getD 0 0
  let aq : ℚ := ((buffer.getD (x * mul + 1) 0 : Int) : ℚ) / 2049 * amplitudes.getD 0 0
  (List.range' 1 (streams - 1)).foldl (fun acc si =>
    let ri := (riq.getD (si - 1) (0, 0)).1
    let rq := (riq.getD (si - 1) (0, 0)).2
    let bi : ℚ := ((buffer.getD (x * mul + si * 2 + 0) 0 : Int) : ℚ) / 2049 * amplitudes.getD si 0
    let bq : ℚ := ((buffer.getD (x * mul + si * 2 + 1) 0 : Int) : ℚ) / 2049 * amplitudes.getD si 0
    (bi * ri - bq * rq + acc.1, bi * rq + bq * ri + acc.2)) (ai, aq)

/-- The squared-magnitude envelope computed by `process_buffer_single_x2`. -/
def process_buffer_single_x2_magsq (buffer : List Int)
    (bri brq amplitude_a amplitude_b : ℚ) : List ℚ :=
  (List.range (buffer.length / 4)).map (fun x =>
    x2_sample_magsq bri brq amplitude_a amplitude_b
      (buffer.getD (x * 4) 0) (buffer.getD (x * 4 + 1) 0)
      (buffer.getD (x * 4 + 2) 0) (buffer.getD (x * 4 + 3) 0))

/-- The squared-magnitude envelope computed by the general per-stream
rotation loop of `process_buffer_single`. -/
def process_buffer_single_general_magsq (buffer : List Int) (riq : List (ℚ × ℚ))
    (amplitudes : List ℚ) (streams : Nat) : List ℚ :=
  let mul := streams * 2
  (List.range (buffer.length / mul)).map (fun x =>
    let e := general_sample buffer x mul riq amplitudes streams
    e.1 * e.1 + e.2 * e.2)

/-- C3: the `x2` fast path and the general rotation loop with `streams = 2`
disagree on the magnitude envelope.  With `cos θ = 0`, `sin θ = 1`, unit
amplitudes, and the single sample `(I₀,Q₀,I₁,Q₁) = (0,0,2049,0)`, the fast
path produces envelope `0` while the general loop produces `1`: the fast
path computes `bq` from the already-rotated `bi`. -/
theorem x2_magsq_differs_from_general :
    process_buffer_single_x2_magsq [0, 0, 2049, 0] 0 1 1 1 = [0] ∧
    process_buffer_single_general_magsq [0, 0, 2049, 0] [(0, 1)] [1, 1] 2 = [1] ∧
    process_buffer_single_x2_magsq [0, 0, 2049, 0] 0 1 1 1 ≠
      process_buffer_single_general_magsq [0, 0, 2049, 0] [(0, 1)] [1, 1] 2 := by
  have h1 : process_buffer_single_x2_magsq [0, 0, 2049, 0] 0 1 1 1 = [0] := by
    norm_num [process_buffer_single_x2_magsq, x2_sample_magsq, List.range_succ]
  have h2 : process_buffer_single_general_magsq [0, 0, 2049, 0] [(0, 1)] [1, 1] 2 = [1] := by
    norm_num [process_buffer_single_general_magsq, general_sample, List.range', List.range_succ]
  refine ⟨h1, h2, ?_⟩
  rw [h1, h2]
  intro h
  have h0 : (0 : ℚ) = 1 := by injection h
  norm_num at h0

/-! ## Pipe management (`pipemgmt.rs`) -/

/-- `pipemgmt.rs`: `ThreadTxMessage`. -/
inductive ThreadTxMessage where
  | Buffer (buffer : List Nat) (streams : Nat)
  | SetWeights (pipe_ndx : Nat) (thetas : List ℚ)
  | UnsetWeights (pipe_ndx : Nat)

/-- `pipemgmt.rs`: `PipeManagement`.  The per-thread `Sender`s are modelled
by a log of sent commands tagged with the destination thread index. -/
structure PipeManagement where
  txs_sent : List (Nat × ThreadTxMessage)
  addr_to_pipe : Nat → Option (Nat × Nat)
  pipe_to_addr : List (Option Nat)
  thread_count : Nat
  pipe_count : Nat

/-- `pipemgmt.rs`: `PipeManagement::new`. -/
def PipeManagement.new (thread_count pipe_count : Nat) : PipeManagement :=
  { txs_sent := []
    addr_to_pipe := fun _ => none
    pipe_to_addr := List.replicate (thread_count * pipe_count) none
    thread_count := thread_count
    pipe_count := pipe_count }

/-- `pipemgmt.rs`: `unset_addr`. -/
def PipeManagement.unset_addr (self : PipeManagement) (addr : Nat) : PipeManagement :=
  match self.addr_to_pipe addr with
  | none => self
  | some (thread_ndx, pipe_ndx) =>
    { self with
      addr_to_pipe := fun a => if a = addr then none else self.addr_to_pipe a
      pipe_to_addr := self.pipe_to_addr.set (thread_ndx * self.pipe_count + pipe_ndx) none
      txs_sent := self.txs_sent ++ [(thread_ndx, ThreadTxMessage.UnsetWeights pipe_ndx)] }

/-- `pipemgmt.rs`: `set_pipe_to_theta` — writes `pipe_to_addr` by global
pipe index without touching `addr_to_pipe` (the source itself warns that a
subsequent `unset_addr` will not unset the pipe). -/
def PipeManagement.set_pipe_to_theta (self : PipeManagement) (pipe_ndx : Nat) (addr : Nat)
    (thetas : Option (List ℚ)) : PipeManagement :=
  let thread_ndx := pipe_ndx / self.pipe_count
  let local_pipe_ndx := pipe_ndx - thread_ndx * self.pipe_count
  match thetas with
  | some v =>
    { self with
      pipe_to_addr := self.pipe_to_addr.set pipe_ndx (some addr)
      txs_sent := self.txs_sent ++ [(thread_ndx, ThreadTxMessage.SetWeights local_pipe_ndx v)] }
  | none =>
    { self with
      pipe_to_addr := self.pipe_to_addr.set pipe_ndx none
      txs_sent := self.txs_sent ++ [(thread_ndx, ThreadTxMessage.UnsetWeights local_pipe_ndx)] }

/-- `pipemgmt.rs`: `get_addr_pipe_ndx`. -/
def PipeManagement.get_addr_pipe_ndx (self : PipeManagement) (addr : Nat) : Option Nat :=
  match self.addr_to_pipe addr with
  | none => none
  | some (thread_ndx, pipe_ndx) => some (thread_ndx * self.pipe_count + pipe_ndx)

/-- `pipemgmt.rs`: `set_addr_to_theta` — update an existing binding or claim
the first free slot. -/
def PipeManagement.set_addr_to_theta (self : PipeManagement) (addr : Nat) (thetas : List ℚ) :
    Bool × PipeManagement :=
  match self.addr_to_pipe addr with
  | some (thread_ndx, pipe_ndx) =>
    (true, { self with
      txs_sent := self.txs_sent ++ [(thread_ndx, ThreadTxMessage.SetWeights pipe_ndx thetas)] })
  | none =>
    match List.findIdx? (fun o => o.isNone) self.pipe_to_addr with
    | some x =>
      let thread_ndx := x / self.pipe_count
      let pipe_ndx := x - thread_ndx * self.pipe_count
      (true, { self with
        pipe_to_addr := self.pipe_to_addr.set x (some addr)
        addr_to_pipe := fun a => if a = addr then some (thread_ndx, pipe_ndx)
          else self.addr_to_pipe a
        txs_sent := self.txs_sent ++ [(thread_ndx, ThreadTxMessage.SetWeights pipe_ndx thetas)] })
    | none => (false, self)

/-- `pipemgmt.rs`: `send_buffer_to_all`. -/
def PipeManagement.send_buffer_to_all (self : PipeManagement) (buffer : List Nat)
    (streams : Nat) : PipeManagement :=
  { self with
    txs_sent := self.txs_sent ++
      (List.range self.thread_count).map (fun t => (t, ThreadTxMessage.Buffer buffer streams)) }

/-- C8's bijection property, over slot coordinates `(t, p)` with
`p < pipe_count`: `addr_to_pipe` maps `a` to `(t, p)` iff slot
`t * pipe_count + p` holds `a`. -/
def pipes_bijection (pm : PipeManagement) : Prop :=
  ∀ a t p, p < pm.pipe_count →
    (pm.addr_to_pipe a = some (t, p) ↔
      pm.pipe_to_addr.getD (t * pm.pipe_count + p) none = some a)

/-- C8 counterexample: after `new(1, 1)` a single `set_pipe_to_theta(0, 5,
Some(..))` leaves slot 0 holding address 5 while `addr_to_pipe` has no
entry for 5, so the two maps do not agree as a bijection. -/
theorem set_pipe_to_theta_breaks_bijection :
    ¬ pipes_bijection ((PipeManagement.new 1 1).set_pipe_to_theta 0 5 (some [])) := by
  intro h
  have h3 : ((PipeManagement.new 1 1).set_pipe_to_theta 0 5 (some [])).pipe_to_addr.getD
      (0 * ((PipeManagement.new 1 1).set_pipe_to_theta 0 5 (some [])).pipe_count + 0) none
      = some 5 := by decide
  have h4 := (h 5 0 0 (by decide)).mpr h3
  have h5 : ((PipeManagement.new 1 1).set_pipe_to_theta 0 5 (some [])).addr_to_pipe 5
      = none := by decide
  rw [h5] at h4
  exact Option.noConfusion h4

/-- The invariant that `new`, `set_addr_to_theta` and `unset_addr`
preserve: slot lengths match, bound coordinates are in range and agree with
`pipe_to_addr`, and occupied slots point back into `addr_to_pipe`. -/
structure PMInv (pm : PipeManagement) : Prop where
  hlen : pm.pipe_to_addr.length = pm.thread_count * pm.pipe_count
  forward : ∀ a t p, pm.addr_to_pipe a = some (t, p) →
    p < pm.pipe_count ∧ t * pm.pipe_count + p < pm.pipe_to_addr.length ∧
      pm.pipe_to_addr.getD (t * pm.pipe_count + p) none = some a
  backward : ∀ x, x < pm.pipe_to_addr.length → ∀ a,
    pm.pipe_to_addr.getD x none = some a →
    pm.addr_to_pipe a = some (x / pm.pipe_count, x % pm.pipe_count)

theorem getD_set_self (l : List (Option Nat)) (x : Nat) (v : Option Nat) (h : x < l.length) :
    (l.set x v).getD x none = v := by
  simp [List.getD_eq_getElem?_getD, List.getElem?_set_self h]

theorem getD_set_ne (l : List (Option Nat)) (x y : Nat) (v : Option Nat) (h : x ≠ y) :
    (l.set x v).getD y none = l.getD y none := by
  simp [List.getD_eq_getElem?_getD, List.getElem?_set_ne h]

theorem getD_oob (l : List (Option Nat)) (x : Nat) (h : l.length ≤ x) :
    l.getD x none = none := List.getD_eq_default _ _ h

theorem getD_replicate_none (n x : Nat) :
    (List.replicate n (none : Option Nat)).getD x none = none := by
  simp [List.getD_eq_getElem?_getD, List.getElem?_replicate]
  split <;> rfl

theorem findIdx?_isNone_facts (l : List (Option Nat)) (x : Nat)
    (h : List.findIdx? (fun o => o.isNone) l = some x) :
    x < l.length ∧ l.getD x none = none := by
  rw [List.findIdx?_eq_some_iff_getElem] at h
  obtain ⟨hx, hp, -⟩ := h
  refine ⟨hx, ?_⟩
  rw [List.getD_eq_getElem?_getD, List.getElem?_eq_getElem hx]
  simpa [Option.isNone_iff_eq_none] using hp

theorem div_mul_add_mod_eq (x pc : Nat) : x / pc * pc + x % pc = x := by
  rw [Nat.mul_comm]
  exact Nat.div_add_mod x pc

theorem sub_div_mul_eq_mod (x pc : Nat) : x - x / pc * pc = x % pc := by
  calc x - x / pc * pc = (x / pc * pc + x % pc) - x / pc * pc := by
        rw [div_mul_add_mod_eq]
    _ = x % pc := Nat.add_sub_cancel_left _ _

theorem index_div (t p pc : Nat) (hp : p < pc) : (t * pc + p) / pc = t := by
  rw [Nat.add_comm, Nat.add_mul_div_right _ _ (Nat.lt_of_le_of_lt (Nat.zero_le p) hp),
    Nat.div_eq_of_lt hp, Nat.zero_add]

theorem index_mod (t p pc : Nat) (hp : p < pc) : (t * pc + p) % pc = p := by
  rw [Nat.add_comm, Nat.add_mul_mod_self_right, Nat.mod_eq_of_lt hp]

theorem pminv_new (tc pc : Nat) : PMInv (PipeManagement.new tc pc) := by
  refine ⟨by simp [PipeManagement.new], ?_, ?_⟩
  · intro a t p h
    simp [PipeManagement.new] at h
  · intro x hx a h
    rw [show (PipeManagement.new tc pc).pipe_to_addr =
      List.replicate (tc * pc) none from rfl, getD_replicate_none] at h
    exact Option.noConfusion h

theorem pminv_unset (pm : PipeManagement) (addr : Nat) (h : PMInv pm) :
    PMInv (pm.unset_addr addr) := by
  unfold PipeManagement.unset_addr
  cases hm : pm.addr_to_pipe addr with
  | none => exact h
  | some tp =>
    obtain ⟨t0, p0⟩ := tp
    obtain ⟨hp0, hidx0, hget0⟩ := h.forward addr t0 p0 hm
    refine ⟨by simpa [List.length_set] using h.hlen, ?_, ?_⟩
    · intro a t p hat
      simp only at hat
      by_cases ha : a = addr
      · simp [ha] at hat
      · rw [if_neg ha] at hat
        obtain ⟨hp, hidx, hget⟩ := h.forward a t p hat
        refine ⟨hp, by simpa [List.length_set] using hidx, ?_⟩
        have hne : t0 * pm.pipe_count + p0 ≠ t * pm.pipe_count + p := by
          intro he
          rw [he, hget] at hget0
          have hh : a = addr := by injection hget0
          exact ha hh
        rw [getD_set_ne _ _ _ _ hne]
        exact hget
    · intro x hx a hget
      rw [List.length_set] at hx
      simp only
      by_cases hxi : t0 * pm.pipe_count + p0 = x
      · rw [← hxi, getD_set_self _ _ _ hidx0] at hget
        exact Option.noConfusion hget
      · rw [getD_set_ne _ _ _ _ hxi] at hget
        have hb := h.backward x hx a hget
        have ha : a ≠ addr := by
          intro he
          rw [he, hm] at hb
          rw [Option.some_inj, Prod.mk.injEq] at hb
          obtain ⟨h1, h2⟩ := hb
          exact hxi (by rw [h1, h2, div_mul_add_mod_eq])
        rw [if_neg ha]
        exact hb

theorem pminv_set_addr (pm : PipeManagement) (addr : Nat) (thetas : List ℚ) (h : PMInv pm) :
    PMInv (pm.set_addr_to_theta addr thetas).2 := by
  unfold PipeManagement.set_addr_to_theta
  cases hm : pm.addr_to_pipe addr with
  | some tp =>
    obtain ⟨t0, p0⟩ := tp
    exact ⟨h.hlen, h.forward, h.backward⟩
  | none =>
    cases hf : List.findIdx? (fun o => o.isNone) pm.pipe_to_addr with
    | none => exact h
    | some x =>
      dsimp only
      obtain ⟨hx, hnone⟩ := findIdx?_isNone_facts _ _ hf
      have hpc : 0 < pm.pipe_count := by
        rcases Nat.eq_zero_or_pos pm.pipe_count with h0 | h0
        · rw [h.hlen, h0, Nat.mul_zero] at hx
          exact absurd hx (by omega)
        · exact h0
      refine ⟨by simpa [List.length_set] using h.hlen, ?_, ?_⟩
      · intro a t p hat
        simp only at hat
        by_cases ha : a = addr
        · rw [if_pos ha] at hat
          rw [Option.some_inj, Prod.mk.injEq] at hat
          obtain ⟨h1, h2⟩ := hat
          rw [sub_div_mul_eq_mod] at h2
          refine ⟨?_, ?_, ?_⟩
          · rw [← h2]
            exact Nat.mod_lt _ hpc
          · rw [← h1, ← h2, div_mul_add_mod_eq]
            simpa [List.length_set] using hx
          · rw [show t * pm.pipe_count + p = x from by rw [← h1, ← h2, div_mul_add_mod_eq]]
            rw [getD_set_self _ _ _ hx, ha]
        · rw [if_neg ha] at hat
          obtain ⟨hp, hidx, hget⟩ := h.forward a t p hat
          refine ⟨hp, by simpa [List.length_set] using hidx, ?_⟩
          have hne : x ≠ t * pm.pipe_count + p := by
            intro he
            rw [← he, hnone] at hget
            exact Option.noConfusion hget
          rw [getD_set_ne _ _ _ _ hne]
          exact hget
      · intro y hy a hget
        rw [List.length_set] at hy
        simp only
        by_cases hxy : x = y
        · rw [← hxy, getD_set_self _ _ _ hx] at hget
          have ha : addr = a := by injection hget
          rw [if_pos ha.symm, ← hxy, sub_div_mul_eq_mod]
        · rw [getD_set_ne _ _ _ _ hxy] at hget
          have hb := h.backward y hy a hget
          have ha : a ≠ addr := by
            intro he
            rw [he, hm] at hb
            exact Option.noConfusion hb
          rw [if_neg ha]
          exact hb

/-- The operations whose interleavings the amended C8 quantifies over:
`set_addr_to_theta` and `unset_addr` (everything except the ULA-only
`set_pipe_to_theta`, which the counterexample shows breaks the bijection). -/
inductive PipeOp where
  | setAddr (addr : Nat) (thetas : List ℚ)
  | unsetAddr (addr : Nat)

def apply_pipe_op (pm : PipeManagement) (op : PipeOp) : PipeManagement :=
  match op with
  | .setAddr addr thetas => (pm.set_addr_to_theta addr thetas).2
  | .unsetAddr addr => pm.unset_addr addr

def apply_pipe_ops (pm : PipeManagement) (ops : List PipeOp) : PipeManagement :=
  ops.foldl apply_pipe_op pm

theorem pminv_apply_ops (pm : PipeManagement) (ops : List PipeOp) (h : PMInv pm) :
    PMInv (apply_pipe_ops pm ops) := by
  induction ops generalizing pm with
  | nil => exact h
  | cons op rest ih =>
    rw [apply_pipe_ops, List.foldl_cons]
    refine ih _ ?_
    cases op with
    | setAddr a th => exact pminv_set_addr pm a th h
    | unsetAddr a => exact pminv_unset pm a h

theorem bijection_of_pminv (pm : PipeManagement) (h : PMInv pm) : pipes_bijection pm := by
  intro a t p hp
  constructor
  · intro hat
    exact (h.forward a t p hat).2.2
  · intro hget
    have hidx : t * pm.pipe_count + p < pm.pipe_to_addr.length := by
      by_contra hge
      push_neg at hge
      rw [getD_oob _ _ hge] at hget
      exact Option.noConfusion hget
    have hb := h.backward _ hidx a hget
    rw [index_div t p _ hp, index_mod t p _ hp] at hb
    exact hb

/-- C8 (amended): after any sequence of `set_addr_to_theta` / `unset_addr`
operations from a fresh `PipeManagement`, `addr_to_pipe` and `pipe_to_addr`
agree as a bijection over the slot coordinates.  (`set_pipe_to_theta` is
excluded: the counterexample shows a single call breaks the property.) -/
theorem pipes_bijection_after_ops (tc pc : Nat) (ops : List PipeOp) :
    pipes_bijection (apply_pipe_ops (PipeManagement.new tc pc) ops) :=
  bijection_of_pminv _ (pminv_apply_ops _ _ (pminv_new tc pc))

/-! ## CPR decoder (`cpr.rs`), entity tracker (`entity.rs` / `main.rs`) -/

/-- Truncation toward zero, as Rust `%` on floats truncates the quotient. -/
def rat_trunc (q : ℚ) : Int := if 0 ≤ q then Int.floor q else -(Int.floor (-q))

/-- The Rust float remainder `a % b` (sign of the dividend). -/
def f32_rem (a b : ℚ) : ℚ := a - b * ((rat_trunc (a / b) : Int) : ℚ)

/-- `cpr.rs`: `cpr_mod_function` — non-negative modulus. -/
def cpr_mod_function (a b : ℚ) : ℚ :=
  let res := f32_rem a b
  if res < 0 then res + b else res

/-- `cpr.rs`: `cpr_nl_function` — the standard NL breakpoint table. -/
def cpr_nl_function (lat0 : ℚ) : ℚ :=
  let lat := if lat0 < 0 then -lat0 else lat0
  if lat < 10.47047130 then 59 else
  if lat < 14.82817437 then 58 else
  if lat < 18.18626357 then 57 else
  if lat < 21.02939493 then 56 else
  if lat < 23.54504487 then 55 else
  if lat < 25.82924707 then 54 else
  if lat < 27.93898710 then 53 else
  if lat < 29.91135686 then 52 else
  if lat < 31.77209708 then 51 else
  if lat < 33.53993436 then 50 else
  if lat < 35.22899598 then 49 else
  if lat < 36.85025108 then 48 else
  if lat < 38.41241892 then 47 else
  if lat < 39.92256684 then 46 else
  if lat < 41.38651832 then 45 else
  if lat < 42.80914012 then 44 else
  if lat < 44.19454951 then 43 else
  if lat < 45.54626723 then 42 else
  if lat < 46.86733252 then 41 else
  if lat < 48.16039128 then 40 else
  if lat < 49.42776439 then 39 else
  if lat < 50.67150166 then 38 else
  if lat < 51.89342469 then 37 else
  if lat < 53.09516153 then 36 else
  if lat < 54.27817472 then 35 else
  if lat < 55.44378444 then 34 else
  if lat < 56.59318756 then 33 else
  if lat < 57.72747354 then 32 else
  if lat < 58.84763776 then 31 else
  if lat < 59.95459277 then 30 else
  if lat < 61.04917774 then 29 else
  if lat < 62.13216659 then 28 else
  if lat < 63.20427479 then 27 else
  if lat < 64.26616523 then 26 else
  if lat < 65.31845310 then 25 else
  if lat < 66.36171008 then 24 else
  if lat < 67.39646774 then 23 else
  if lat < 68.42322022 then 22 else
  if lat < 69.44242631 then 21 else
  if lat < 70.45451075 then 20 else
  if lat < 71.45986473 then 19 else
  if lat < 72.45884545 then 18 else
  if lat < 73.45177442 then 17 else
  if lat < 74.43893416 then 16 else
  if lat < 75.42056257 then 15 else
  if lat < 76.39684391 then 14 else
  if lat < 77.36789461 then 13 else
  if lat < 78.33374083 then 12 else
  if lat < 79.29428225 then 11 else
  if lat < 80.24923213 then 10 else
  if lat < 81.19801349 then 9 else
  if lat < 82.13956981 then 8 else
  if lat < 83.07199445 then 7 else
  if lat < 83.99173563 then 6 else
  if lat < 84.89166191 then 5 else
  if lat < 85.75541621 then 4 else
  if lat < 86.53536998 then 3 else
  if lat < 87.00000000 then 2 else
  1

/-- `cpr.rs`: `cpr_n_function`. -/
def cpr_n_function (lat isodd : ℚ) : ℚ :=
  let nl := cpr_nl_function lat - isodd
  if nl < 1 then 1 else nl

/-- `cpr.rs`: `cpr_dlon_function`. -/
def cpr_dlon_function (lat isodd : ℚ) : ℚ := 360 / cpr_n_function lat isodd

/-- `f32::floor`, kept in `ℚ`. -/
def floorQ (q : ℚ) : ℚ := ((Int.floor q : Int) : ℚ)

/-- `cpr.rs`: `decode_cpr`.  Operands are `(raw_lat, raw_lon, sample_time)`;
`f32` arithmetic is modelled exactly over `ℚ`. -/
def decode_cpr (even odd : Nat × Nat × Nat) : Option (ℚ × ℚ) :=
  let air_dlat0 : ℚ := 360 / 60
  let air_dlat1 : ℚ := 360 / 59
  let lat0 : ℚ := (even.1 : ℚ)
  let lat1 : ℚ := (odd.1 : ℚ)
  let lon0 : ℚ := (even.2.1 : ℚ)
  let lon1 : ℚ := (odd.2.1 : ℚ)
  let j := floorQ ((59 * lat0 - 60 * lat1) / 131072 + 0.5)
  let rlat0a := air_dlat0 * (cpr_mod_function j 60 + lat0 / 131072)
  let rlat1a := air_dlat1 * (cpr_mod_function j 59 + lat1 / 131072)
  let rlat0 := if rlat0a ≥ 270 then rlat0a - 360 else rlat0a
  let rlat1 := if rlat1a ≥ 270 then rlat1a - 360 else rlat1a
  if cpr_nl_function rlat0 ≠ cpr_nl_function rlat1 then none
  else if even.2.2 > odd.2.2 then
    let ni := cpr_n_function rlat0 0
    let m := floorQ (((lon0 * (cpr_nl_function rlat0 - 1) - lon1 * cpr_nl_function rlat0) /
      131072) + 0.5)
    let lon := cpr_dlon_function rlat0 0 * (cpr_mod_function m ni + lon0 / 131072)
    some (rlat0, if lon > 180 then lon - 360 else lon)
  else
    let ni := cpr_n_function rlat1 1
    let m := floorQ (((lon0 * (cpr_nl_function rlat1 - 1) - lon1 * cpr_nl_function rlat1) /
      131072) + 0.5)
    let lon := cpr_dlon_function rlat1 1 * (cpr_mod_function m ni + lon1 / 131072)
    some (rlat1, if lon > 180 then lon - 360 else lon)

/-- `entity.rs` / `main.rs`: `Entity`. -/
structure Entity where
  addr : Nat
  odd_cpr : Option (Nat × Nat × Nat)
  even_cpr : Option (Nat × Nat × Nat)
  lat : Option ℚ
  lon : Option ℚ
  alt : Option ℚ
  flight : Option (List Char)
  aircraft_type : Option Nat
  last_update : Nat
  message_count : Nat
  thetas : List (List ℚ)
  snrs : List ℚ
  amps : List (List ℚ)
  inbeam : Nat

/-- `entity.rs`: `theta_avg` — the SNR-weighted averages of the rolling
theta and amplitude deques. -/
def Entity.theta_avg (self : Entity) (snr_scaler : ℚ) : List ℚ × List ℚ :=
  let dim := (self.thetas.getD 0 []).length
  let adim := (self.amps.getD 0 []).length
  let total := (List.range self.thetas.length).foldl
    (fun acc y => acc + self.snrs.getD y 0 * snr_scaler) 0
  let sum := (List.range dim).map (fun x =>
    (List.range self.thetas.length).foldl (fun acc y =>
      acc + (self.thetas.getD y []).getD x 0 * self.snrs.getD y 0 * snr_scaler) 0)
  let amp_sum := (List.range adim).map (fun x =>
    (List.range self.amps.length).foldl (fun acc y =>
      acc + (self.amps.getD y []).getD x 0 * self.snrs.getD y 0 * snr_scaler) 0)
  (sum.map (fun v => v / total), amp_sum.map (fun v => v / total))

/-- `entity.rs`: `push_theta_cap_avg` — push to the front, trim the deques
to `num`, and return the weighted averages with the updated entity. -/
def Entity.push_theta_cap_avg (self : Entity) (snr : ℚ) (thetas : List ℚ) (amps : List ℚ)
    (num : Nat) (snr_scaler : ℚ) : (List ℚ × List ℚ) × Entity :=
  let e1 := { self with
    thetas := thetas :: self.thetas, snrs := snr :: self.snrs, amps := amps :: self.amps }
  let k := e1.thetas.length - num
  let e2 := { e1 with
    thetas := e1.thetas.take (e1.thetas.length - k),
    snrs := e1.snrs.take (e1.snrs.length - k),
    amps := e1.amps.take (e1.amps.length - k) }
  (e2.theta_avg snr_scaler, e2)

/-- `entity.rs`: `check_if_in_beam`. -/
def Entity.check_if_in_beam (self : Entity) (pm : PipeManagement) (pipe_ndx : Nat) : Entity :=
  match pm.get_addr_pipe_ndx self.addr with
  | some stored_pipe_ndx =>
    if stored_pipe_ndx = pipe_ndx then { self with inbeam := self.inbeam + 1 } else self
  | none => self

/-- `entity.rs`: the fresh record `init_entity_if_not` inserts. -/
def default_entity (addr : Nat) : Entity :=
  { addr := addr, odd_cpr := none, even_cpr := none, lat := none, lon := none, alt := none,
    flight := none, last_update := 0, aircraft_type := none, thetas := [], snrs := [],
    amps := [], message_count := 0, inbeam := 0 }

/-- `entity.rs`: `init_entity_if_not` (entity map modelled as an association
list, newest binding first). -/
def init_entity_if_not (addr : Nat) (entities : List (Nat × Entity)) : List (Nat × Entity) :=
  match List.lookup addr entities with
  | some _ => entities
  | none => (addr, default_entity addr) :: entities

/-- Store the updated record for `addr` back into the map (the source
mutates through `get_mut`). -/
def update_entity (entities : List (Nat × Entity)) (addr : Nat) (ent : Entity) :
    List (Nat × Entity) :=
  entities.map (fun p => if p.1 = addr then (p.1, ent) else p)

/-- Modelled from the spec (§4.5, allocate/update for address): `main.rs`
calls a three-argument `set_addr_to_theta(addr, thetas, Some(amps))` whose
`pipemgmt.rs` counterpart in the sources is the two-argument variant; the
extra amplitudes only enrich the `SetWeights` command payload, which no
claim observes, so the map behavior is that of `set_addr_to_theta`. -/
def set_addr_to_theta3 (pm : PipeManagement) (addr : Nat) (thetas : List ℚ)
    (_amps : Option (List ℚ)) : Bool × PipeManagement :=
  pm.set_addr_to_theta addr thetas

/-- `entity.rs` / `main.rs`, `process_messages`, tail of the
`AirbornePositionMessage` arm: if both CPR slots are populated and the
sample-time delta divided by the sample rate (integer division) is at most
10, run `decode_cpr` and store the position on success. -/
def cpr_pairing_update (ent : Entity) : Entity :=
  match ent.even_cpr with
  | some a =>
    match ent.odd_cpr with
    | some b =>
      let delta := if a.2.2 > b.2.2 then a.2.2 - b.2.2 else b.2.2 - a.2.2
      if delta / 2000000 ≤ 10 then
        match decode_cpr a b with
        | some p => { ent with lat := some p.1, lon := some p.2 }
        | none => ent
      else ent
    | none => ent
  | none => ent

/-- `entity.rs` / `main.rs`: one iteration of the `process_messages` loop. -/
def process_message_one (snr_scaler : ℚ) (weighted_avg_depth : Nat)
    (buffer_start_sample_index : Nat) (st : List (Nat × Entity) × PipeManagement)
    (item : Nat × Message) : List (Nat × Entity) × PipeManagement :=
  let entities := st.1
  let pipe_mgmt := st.2
  let buffer_sample_index := item.1
  let m := item.2
  let sample_index := buffer_sample_index + buffer_start_sample_index
  match m.specific with
  | .AirborneVelocityMessageShort hdr _ =>
    let entities := init_entity_if_not hdr.addr entities
    match List.lookup hdr.addr entities with
    | none => (entities, pipe_mgmt)
    | some ent =>
      let ent := { ent with message_count := ent.message_count + 1 }
      let ent := ent.check_if_in_beam pipe_mgmt m.common.pipe_ndx
      let r := ent.push_theta_cap_avg m.common.snr m.common.thetas m.common.amplitudes
        weighted_avg_depth snr_scaler
      let pipe_mgmt := (set_addr_to_theta3 pipe_mgmt hdr.addr r.1.1 (some r.1.2)).2
      (update_entity entities hdr.addr r.2, pipe_mgmt)
  | .AirborneVelocityMessage hdr _ _ _ _ _ _ _ =>
    let entities := init_entity_if_not hdr.addr entities
    match List.lookup hdr.addr entities with
    | none => (entities, pipe_mgmt)
    | some ent =>
      let ent := { ent with message_count := ent.message_count + 1 }
      let ent := ent.check_if_in_beam pipe_mgmt m.common.pipe_ndx
      let r := ent.push_theta_cap_avg m.common.snr m.common.thetas m.common.amplitudes
        weighted_avg_depth snr_scaler
      let pipe_mgmt := (set_addr_to_theta3 pipe_mgmt hdr.addr r.1.1 (some r.1.2)).2
      (update_entity entities hdr.addr r.2, pipe_mgmt)
  | .AircraftIdenAndCat hdr aircraft_type flight =>
    let entities := init_entity_if_not hdr.addr entities
    match List.lookup hdr.addr entities with
    | none => (entities, pipe_mgmt)
    | some ent =>
      let ent := { ent with
        last_update := sample_index, flight := some flight,
        aircraft_type := some aircraft_type, message_count := ent.message_count + 1 }
      let ent := ent.check_if_in_beam pipe_mgmt m.common.pipe_ndx
      let r := ent.push_theta_cap_avg m.common.snr m.common.thetas m.common.amplitudes
        weighted_avg_depth snr_scaler
      let pipe_mgmt := (set_addr_to_theta3 pipe_mgmt hdr.addr r.1.1 (some r.1.2)).2
      (update_entity entities hdr.addr r.2, pipe_mgmt)
  | .AirbornePositionMessage hdr f_flag _ altitude raw_lat raw_lon =>
    let entities := init_entity_if_not hdr.addr entities
    match List.lookup hdr.addr entities with
    | none => (entities, pipe_mgmt)
    | some ent =>
      let ent := { ent with
        last_update := sample_index, alt := some altitude,
        message_count := ent.message_count + 1 }
      let ent := ent.check_if_in_beam pipe_mgmt m.common.pipe_ndx
      let r := ent.push_theta_cap_avg m.common.snr m.common.thetas m.common.amplitudes
        weighted_avg_depth snr_scaler
      let pipe_mgmt := (set_addr_to_theta3 pipe_mgmt hdr.addr r.1.1 (some r.1.2)).2
      let ent := r.2
      let ent := if f_flag then { ent with odd_cpr := some (raw_lat, raw_lon, sample_index) }
        else { ent with even_cpr := some (raw_lat, raw_lon, sample_index) }
      let ent := cpr_pairing_update ent
      (update_entity entities hdr.addr ent, pipe_mgmt)
  | _ => (entities, pipe_mgmt)

/-- `entity.rs` / `main.rs`: `process_messages`. -/
def process_messages (messages : List (Nat × Message)) (entities : List (Nat × Entity))
    (buffer_start_sample_index : Nat) (pipe_mgmt : PipeManagement) (snr_scaler : ℚ)
    (weighted_avg_depth : Nat) : List (Nat × Entity) × PipeManagement :=
  messages.foldl (process_message_one snr_scaler weighted_avg_depth buffer_start_sample_index)
    (entities, pipe_mgmt)

/-! ## Entity eviction (`main.rs`, stats heartbeat) -/

/-- `main.rs` (heartbeat block): the body of the per-address eviction loop.
The key list is a snapshot; a stale entry is dropped from the table and its
pipe released through `unset_addr`. -/
def eviction_step (sample_index : Nat) (st : List (Nat × Entity) × PipeManagement)
    (addr : Nat) : List (Nat × Entity) × PipeManagement :=
  match List.lookup addr st.1 with
  | none => st
  | some ent =>
    let delta := sample_index - ent.last_update
    if delta / 2000000 > 60 then
      (st.1.filter (fun p => p.1 != addr), st.2.unset_addr addr)
    else st

/-- `main.rs` (heartbeat block): the whole eviction pass over the snapshot
of the entity keys. -/
def eviction_pass (entities : List (Nat × Entity)) (pm : PipeManagement)
    (sample_index : Nat) : List (Nat × Entity) × PipeManagement :=
  (entities.map (fun p => p.1)).foldl (eviction_step sample_index) (entities, pm)

theorem lookup_filter_bne {β : Type} (a k : Nat) (h : a ≠ k) (l : List (Nat × β)) :
    List.lookup a (l.filter (fun p => p.1 != k)) = List.lookup a l := by
  induction l with
  | nil => rfl
  | cons x xs ih =>
    obtain ⟨q, v⟩ := x
    by_cases hq : q = k
    · subst hq
      have hak : (a == q) = false := beq_eq_false_iff_ne.mpr h
      simp [List.filter_cons, List.lookup_cons, hak, ih]
    · have h1 : ((q, v).1 != k) = true := by simpa using hq
      simp [List.filter_cons, h1, List.lookup_cons, ih]

theorem lookup_filter_self {β : Type} (k : Nat) (l : List (Nat × β)) :
    List.lookup k (l.filter (fun p => p.1 != k)) = none := by
  induction l with
  | nil => rfl
  | cons x xs ih =>
    obtain ⟨q, v⟩ := x
    by_cases hq : q = k
    · subst hq; simp [List.filter_cons, ih]
    · have h1 : ((q, v).1 != k) = true := by simpa using hq
      have h2 : (k == q) = false := beq_eq_false_iff_ne.mpr (Ne.symm hq)
      simp [List.filter_cons, h1, List.lookup_cons, h2, ih]

theorem lookup_filter_none {β : Type} (a : Nat) (p : Nat × β → Bool) (l : List (Nat × β))
    (h : List.lookup a l = none) : List.lookup a (l.filter p) = none := by
  induction l with
  | nil => rfl
  | cons x xs ih =>
    obtain ⟨q, v⟩ := x
    rw [List.lookup_cons] at h
    cases hak : (a == q) with
    | true => rw [hak] at h; exact absurd h (by simp)
    | false =>
      rw [hak] at h
      have htail : List.lookup a xs = none := h
      rw [List.filter_cons]
      cases hp : p (q, v) with
      | true =>
        rw [if_pos rfl, List.lookup_cons, hak]
        exact ih htail
      | false =>
        rw [if_neg (by simp)]
        exact ih htail

theorem getD_set_none_self (l : List (Option Nat)) (x : Nat) :
    (l.set x none).getD x none = none := by
  by_cases hx : x < l.length
  · exact getD_set_self l x none hx
  · rw [getD_oob]; rw [List.length_set]; omega

theorem getD_set_none_preserve (l : List (Option Nat)) (x y : Nat)
    (h : l.getD y none = none) : (l.set x none).getD y none = none := by
  by_cases hxy : x = y
  · subst hxy; exact getD_set_none_self l x
  · rw [getD_set_ne l x y none hxy]; exact h

theorem unset_addr_to_pipe_ne (pm : PipeManagement) (k a : Nat) (h : a ≠ k) :
    (pm.unset_addr k).addr_to_pipe a = pm.addr_to_pipe a := by
  unfold PipeManagement.unset_addr
  cases hk : pm.addr_to_pipe k with
  | none => rfl
  | some tp => obtain ⟨t, p⟩ := tp; simp [h]

theorem unset_addr_to_pipe_self (pm : PipeManagement) (k : Nat) :
    (pm.unset_addr k).addr_to_pipe k = none := by
  unfold PipeManagement.unset_addr
  cases hk : pm.addr_to_pipe k with
  | none => exact hk
  | some tp => obtain ⟨t, p⟩ := tp; simp

theorem unset_addr_pipe_count (pm : PipeManagement) (k : Nat) :
    (pm.unset_addr k).pipe_count = pm.pipe_count := by
  unfold PipeManagement.unset_addr
  cases hk : pm.addr_to_pipe k with
  | none => rfl
  | some tp => obtain ⟨t, p⟩ := tp; rfl

theorem unset_addr_slot_none_preserve (pm : PipeManagement) (k idx : Nat)
    (h : pm.pipe_to_addr.getD idx none = none) :
    (pm.unset_addr k).pipe_to_addr.getD idx none = none := by
  unfold PipeManagement.unset_addr
  cases hk : pm.addr_to_pipe k with
  | none => exact h
  | some tp => obtain ⟨t, p⟩ := tp; exact getD_set_none_preserve _ _ _ h

theorem unset_addr_to_pipe_none_preserve (pm : PipeManagement) (k a : Nat)
    (h : pm.addr_to_pipe a = none) : (pm.unset_addr k).addr_to_pipe a = none := by
  by_cases hak : a = k
  · subst hak; exact unset_addr_to_pipe_self pm a
  · rw [unset_addr_to_pipe_ne pm k a hak]; exact h

theorem eviction_step_of_none (now k : Nat) (st : List (Nat × Entity) × PipeManagement)
    (h : List.lookup k st.1 = none) : eviction_step now st k = st := by
  unfold eviction_step
  rw [h]

theorem eviction_step_stale (now k : Nat) (st : List (Nat × Entity) × PipeManagement)
    (e : Entity) (h : List.lookup k st.1 = some e)
    (hd : (now - e.last_update) / 2000000 > 60) :
    eviction_step now st k = (st.1.filter (fun p => p.1 != k), st.2.unset_addr k) := by
  unfold eviction_step
  rw [h]
  dsimp only
  rw [if_pos hd]

theorem eviction_step_fresh (now k : Nat) (st : List (Nat × Entity) × PipeManagement)
    (e : Entity) (h : List.lookup k st.1 = some e)
    (hd : ¬ (now - e.last_update) / 2000000 > 60) : eviction_step now st k = st := by
  unfold eviction_step
  rw [h]
  dsimp only
  rw [if_neg hd]

theorem eviction_step_preserve (now k addr : Nat) (ent : Entity)
    (st : List (Nat × Entity) × PipeManagement) (hk : addr ≠ k)
    (h1 : List.lookup addr st.1 = some ent) :
    List.lookup addr (eviction_step now st k).1 = some ent ∧
    (eviction_step now st k).2.addr_to_pipe addr = st.2.addr_to_pipe addr ∧
    (eviction_step now st k).2.pipe_count = st.2.pipe_count := by
  cases hl : List.lookup k st.1 with
  | none =>
    rw [eviction_step_of_none now k st hl]
    exact ⟨h1, rfl, rfl⟩
  | some e =>
    by_cases hd : (now - e.last_update) / 2000000 > 60
    · rw [eviction_step_stale now k st e hl hd]
      exact ⟨(lookup_filter_bne addr k hk _).trans h1,
        unset_addr_to_pipe_ne _ _ _ hk, unset_addr_pipe_count _ _⟩
    · rw [eviction_step_fresh now k st e hl hd]
      exact ⟨h1, rfl, rfl⟩

theorem eviction_phase1 (now addr : Nat) (ent : Entity) (A : Option (Nat × Nat)) (pc0 : Nat)
    (keys : List Nat) :
    ∀ (st : List (Nat × Entity) × PipeManagement), addr ∉ keys →
      List.lookup addr st.1 = some ent → st.2.addr_to_pipe addr = A →
      st.2.pipe_count = pc0 →
      List.lookup addr (keys.foldl (eviction_step now) st).1 = some ent ∧
      (keys.foldl (eviction_step now) st).2.addr_to_pipe addr = A ∧
      (keys.foldl (eviction_step now) st).2.pipe_count = pc0 := by
  induction keys with
  | nil => intro st _ h1 h2 h3; exact ⟨h1, h2, h3⟩
  | cons k ks ih =>
    intro st hmem h1 h2 h3
    have hk : addr ≠ k := fun h => hmem (h ▸ List.mem_cons_self k ks)
    have hstep := eviction_step_preserve now k addr ent st hk h1
    rw [List.foldl_cons]
    exact ih (eviction_step now st k) (fun h => hmem (List.mem_cons_of_mem _ h))
      hstep.1 (hstep.2.1.trans h2) (hstep.2.2.trans h3)

theorem eviction_step_preserve_removed (now k addr : Nat)
    (st : List (Nat × Entity) × PipeManagement)
    (h1 : List.lookup addr st.1 = none) (h2 : st.2.addr_to_pipe addr = none) :
    List.lookup addr (eviction_step now st k).1 = none ∧
    (eviction_step now st k).2.addr_to_pipe addr = none := by
  cases hl : List.lookup k st.1 with
  | none =>
    rw [eviction_step_of_none now k st hl]
    exact ⟨h1, h2⟩
  | some e =>
    by_cases hd : (now - e.last_update) / 2000000 > 60
    · rw [eviction_step_stale now k st e hl hd]
      exact ⟨lookup_filter_none _ _ _ h1, unset_addr_to_pipe_none_preserve _ _ _ h2⟩
    · rw [eviction_step_fresh now k st e hl hd]
      exact ⟨h1, h2⟩

theorem eviction_phase3 (now addr : Nat) (keys : List Nat) :
    ∀ (st : List (Nat × Entity) × PipeManagement),
      List.lookup addr st.1 = none → st.2.addr_to_pipe addr = none →
      List.lookup addr (keys.foldl (eviction_step now) st).1 = none ∧
      (keys.foldl (eviction_step now) st).2.addr_to_pipe addr = none := by
  induction keys with
  | nil => intro st h1 h2; exact ⟨h1, h2⟩
  | cons k ks ih =>
    intro st h1 h2
    have hstep := eviction_step_preserve_removed now k addr st h1 h2
    rw [List.foldl_cons]
    exact ih (eviction_step now st k) hstep.1 hstep.2

theorem eviction_step_slot_none (now k idx : Nat)
    (st : List (Nat × Entity) × PipeManagement)
    (h : st.2.pipe_to_addr.getD idx none = none) :
    (eviction_step now st k).2.pipe_to_addr.getD idx none = none := by
  cases hl : List.lookup k st.1 with
  | none =>
    rw [eviction_step_of_none now k st hl]
    exact h
  | some e =>
    by_cases hd : (now - e.last_update) / 2000000 > 60
    · rw [eviction_step_stale now k st e hl hd]
      exact unset_addr_slot_none_preserve _ _ _ h
    · rw [eviction_step_fresh now k st e hl hd]
      exact h

theorem eviction_phase3_slot (now idx : Nat) (keys : List Nat) :
    ∀ (st : List (Nat × Entity) × PipeManagement),
      st.2.pipe_to_addr.getD idx none = none →
      (keys.foldl (eviction_step now) st).2.pipe_to_addr.getD idx none = none := by
  induction keys with
  | nil => intro st h; exact h
  | cons k ks ih =>
    intro st h
    rw [List.foldl_cons]
    exact ih (eviction_step now st k) (eviction_step_slot_none now k idx st h)

theorem mem_keys_of_lookup {β : Type} (a : Nat) (b : β) (l : List (Nat × β))
    (h : List.lookup a l = some b) : a ∈ l.map (fun p => p.1) := by
  induction l with
  | nil => exact absurd h (by simp)
  | cons x xs ih =>
    obtain ⟨q, v⟩ := x
    rw [List.lookup_cons] at h
    cases hak : (a == q) with
    | true =>
      have : a = q := by simpa using hak
      simp [this]
    | false =>
      rw [hak] at h
      exact List.mem_cons_of_mem _ (ih h)

/-- C7 (amended): an entity whose `last_update` is at least `122,000,000`
samples behind the current stream index — the exact reach of the integer
test `delta / 2_000_000 > 60` — is removed from the table by the eviction
pass, `addr_to_pipe` no longer maps its address, and the pipe slot that was
bound to it holds `None`. -/
theorem eviction_pass_removes_stale (entities : List (Nat × Entity)) (pm : PipeManagement)
    (now addr : Nat) (ent : Entity)
    (hnd : (entities.map (fun p => p.1)).Nodup)
    (hl : List.lookup addr entities = some ent)
    (hstale : 122000000 ≤ now - ent.last_update) :
    List.lookup addr (eviction_pass entities pm now).1 = none ∧
    (eviction_pass entities pm now).2.addr_to_pipe addr = none ∧
    (∀ t p, pm.addr_to_pipe addr = some (t, p) →
      (eviction_pass entities pm now).2.pipe_to_addr.getD (t * pm.pipe_count + p) none
        = none) := by
  have hmem : addr ∈ entities.map (fun p => p.1) := mem_keys_of_lookup addr ent entities hl
  obtain ⟨l1, l2, hsplit⟩ := List.append_of_mem hmem
  rw [hsplit] at hnd
  have hnl1 : addr ∉ l1 := by
    have hd := (List.nodup_append.mp hnd).2.2
    intro hmem1
    exact List.disjoint_left.mp hd hmem1 (List.mem_cons_self addr l2)
  unfold eviction_pass
  rw [hsplit, List.foldl_append, List.foldl_cons]
  have p1 := eviction_phase1 now addr ent (pm.addr_to_pipe addr) pm.pipe_count l1
    (entities, pm) hnl1 hl rfl rfl
  obtain ⟨q1, q2, q3⟩ := p1
  have hgt : (now - ent.last_update) / 2000000 > 60 := by omega
  have hstep := eviction_step_stale now addr (l1.foldl (eviction_step now) (entities, pm))
    ent q1 hgt
  rw [hstep]
  have hrm1 : List.lookup addr
      ((l1.foldl (eviction_step now) (entities, pm)).1.filter (fun p => p.1 != addr))
      = none := lookup_filter_self addr _
  have hrm2 : ((l1.foldl (eviction_step now) (entities, pm)).2.unset_addr addr).addr_to_pipe
      addr = none := unset_addr_to_pipe_self _ addr
  have hmain := eviction_phase3 now addr l2
    ((l1.foldl (eviction_step now) (entities, pm)).1.filter (fun p => p.1 != addr),
      (l1.foldl (eviction_step now) (entities, pm)).2.unset_addr addr) hrm1 hrm2
  refine ⟨hmain.1, hmain.2, ?_⟩
  intro t p htp
  apply eviction_phase3_slot now (t * pm.pipe_count + p) l2
  have q2' : (l1.foldl (eviction_step now) (entities, pm)).2.addr_to_pipe addr
      = some (t, p) := q2.trans htp
  show ((l1.foldl (eviction_step now) (entities, pm)).2.unset_addr addr).pipe_to_addr.getD
    (t * pm.pipe_count + p) none = none
  unfold PipeManagement.unset_addr
  rw [q2']
  dsimp only
  rw [q3]
  exact getD_set_none_self _ _

/-- Witness for `eviction_pass_removes_stale` at a one-entry table with
`last_update = 0` and stream index `122,000,000`. -/
theorem eviction_pass_removes_stale_witness :
    List.lookup 7 (eviction_pass [(7, default_entity 7)] (PipeManagement.new 1 1)
      122000000).1 = none :=
  (eviction_pass_removes_stale [(7, default_entity 7)] (PipeManagement.new 1 1)
    122000000 7 (default_entity 7) (by decide) rfl (by decide)).1

/-- C7: counterexample to the claimed threshold.  An entity whose
`last_update` lies `120,000,001 > 60 * 2,000,000` samples behind the stream
index survives the eviction pass, because `120000001 / 2000000 = 60` is not
`> 60`. -/
theorem eviction_retains_at_120000001 :
    120000001 - (default_entity 7).last_update > 120000000 ∧
    (List.lookup 7 (eviction_pass [(7, default_entity 7)] (PipeManagement.new 1 1)
      120000001).1).isSome = true := by
  constructor
  · decide
  · decide

/-! ## SNR merges (`stream.rs` `process_buffer`, `main.rs` orchestrator) -/

/-- `stream.rs`, `process_buffer`: fold one `ProcessStreamResult` into the
per-worker map keyed by sample index (`HashMap` modelled as an association
list, newest binding first). -/
def merge_psr_step (hm : List (Nat × ProcessStreamResult)) (result : ProcessStreamResult) :
    List (Nat × ProcessStreamResult) :=
  match List.lookup result.ndx hm with
  | some other => if other.snr < result.snr then (result.ndx, result) :: hm else hm
  | none => (result.ndx, result) :: hm

/-- `stream.rs`, `process_buffer`: the per-worker merge of all candidate
results of a buffer. -/
def merge_worker_results (results : List ProcessStreamResult) :
    List (Nat × ProcessStreamResult) :=
  results.foldl merge_psr_step []

/-- `main.rs`, orchestrator loop: fold one worker `Message` into the
cross-worker map keyed by sample index. -/
def merge_msg_step (hm : List (Nat × Message)) (message : Message) : List (Nat × Message) :=
  match List.lookup message.common.ndx hm with
  | some other =>
    if other.common.snr < message.common.snr then (message.common.ndx, message) :: hm
    else hm
  | none => (message.common.ndx, message) :: hm

/-- `main.rs`, orchestrator loop: merge the per-worker message lists. -/
def merge_worker_messages (worker_lists : List (List Message)) : List (Nat × Message) :=
  worker_lists.foldl (fun hm msgs => msgs.foldl merge_msg_step hm) []

theorem merge_step_invariant {α : Type} (ndx : α → Nat) (snr : α → ℚ)
    (hm : List (Nat × α)) (processed : List α) (r : α) (hm2 : List (Nat × α))
    (hhm2 : hm2 = match List.lookup (ndx r) hm with
      | some other => if snr other < snr r then (ndx r, r) :: hm else hm
      | none => (ndx r, r) :: hm)
    (hpos : ∀ k v, List.lookup k hm = some v →
      ndx v = k ∧ v ∈ processed ∧ ∀ x ∈ processed, ndx x = k → snr x ≤ snr v)
    (hneg : ∀ k, List.lookup k hm = none → ∀ x ∈ processed, ndx x ≠ k) :
    (∀ k v, List.lookup k hm2 = some v →
      ndx v = k ∧ v ∈ processed ++ [r] ∧
        ∀ x ∈ processed ++ [r], ndx x = k → snr x ≤ snr v) ∧
    (∀ k, List.lookup k hm2 = none → ∀ x ∈ processed ++ [r], ndx x ≠ k) := by
  have hcons : ∀ (hbound : ∀ x ∈ processed, ndx x = ndx r → snr x ≤ snr r),
      (∀ k v, List.lookup k ((ndx r, r) :: hm) = some v →
        ndx v = k ∧ v ∈ processed ++ [r] ∧
          ∀ x ∈ processed ++ [r], ndx x = k → snr x ≤ snr v) ∧
      (∀ k, List.lookup k ((ndx r, r) :: hm) = none →
        ∀ x ∈ processed ++ [r], ndx x ≠ k) := by
    intro hbound
    constructor
    · intro k v hkv
      rw [List.lookup_cons] at hkv
      cases hkk : (k == ndx r) with
      | true =>
        rw [hkk] at hkv
        have hk : k = ndx r := by simpa using hkk
        have hv : r = v := by simpa using hkv
        subst hv
        subst hk
        refine ⟨rfl, List.mem_append_right _ (List.mem_singleton.mpr rfl), ?_⟩
        intro x hx hxk
        rcases List.mem_append.mp hx with hx1 | hx2
        · exact hbound x hx1 hxk
        · rw [List.mem_singleton.mp hx2]
      | false =>
        rw [hkk] at hkv
        have hk : k ≠ ndx r := by simpa using hkk
        obtain ⟨a, b, c⟩ := hpos k v hkv
        refine ⟨a, List.mem_append_left _ b, ?_⟩
        intro x hx hxk
        rcases List.mem_append.mp hx with hx1 | hx2
        · exact c x hx1 hxk
        · rw [List.mem_singleton.mp hx2] at hxk
          exact absurd hxk.symm hk
    · intro k hk x hx
      rw [List.lookup_cons] at hk
      cases hkk : (k == ndx r) with
      | true => rw [hkk] at hk; exact absurd hk (by simp)
      | false =>
        rw [hkk] at hk
        have hkne : k ≠ ndx r := by simpa using hkk
        rcases List.mem_append.mp hx with hx1 | hx2
        · exact hneg k hk x hx1
        · rw [List.mem_singleton.mp hx2]; exact fun h => hkne h.symm
  cases hlr : List.lookup (ndx r) hm with
  | none =>
    rw [hlr] at hhm2
    have hhm : hm2 = (ndx r, r) :: hm := hhm2
    subst hhm
    refine hcons ?_
    intro x hx hxk
    exact absurd hxk (hneg (ndx r) hlr x hx)
  | some other =>
    rw [hlr] at hhm2
    have hhm : hm2 = if snr other < snr r then (ndx r, r) :: hm else hm := hhm2
    by_cases hlt : snr other < snr r
    · rw [if_pos hlt] at hhm
      subst hhm
      refine hcons ?_
      intro x hx hxk
      exact le_of_lt (lt_of_le_of_lt ((hpos (ndx r) other hlr).2.2 x hx hxk) hlt)
    · rw [if_neg hlt] at hhm
      subst hhm
      constructor
      · intro k v hkv
        obtain ⟨a, b, c⟩ := hpos k v hkv
        refine ⟨a, List.mem_append_left _ b, ?_⟩
        intro x hx hxk
        rcases List.mem_append.mp hx with hx1 | hx2
        · exact c x hx1 hxk
        · rw [List.mem_singleton.mp hx2] at hxk ⊢
          have hko : k = ndx r := hxk.symm
          subst hko
          have hvo : other = v := by
            have := hlr.symm.trans hkv
            simpa using this
          subst hvo
          exact not_lt.mp hlt
      · intro k hk x hx
        rcases List.mem_append.mp hx with hx1 | hx2
        · exact hneg k hk x hx1
        · rw [List.mem_singleton.mp hx2]
          intro hko
          rw [← hko] at hk
          rw [hk] at hlr
          exact absurd hlr (by simp)
  
theorem merge_fold_invariant {α : Type} (ndx : α → Nat) (snr : α → ℚ)
    (step : List (Nat × α) → α → List (Nat × α))
    (hstep : ∀ hm r, step hm r = match List.lookup (ndx r) hm with
      | some other => if snr other < snr r then (ndx r, r) :: hm else hm
      | none => (ndx r, r) :: hm)
    (results : List α) :
    ∀ (hm : List (Nat × α)) (processed : List α),
      (∀ k v, List.lookup k hm = some v →
        ndx v = k ∧ v ∈ processed ∧ ∀ x ∈ processed, ndx x = k → snr x ≤ snr v) →
      (∀ k, List.lookup k hm = none → ∀ x ∈ processed, ndx x ≠ k) →
      (∀ k v, List.lookup k (results.foldl step hm) = some v →
        ndx v = k ∧ v ∈ processed ++ results ∧
          ∀ x ∈ processed ++ results, ndx x = k → snr x ≤ snr v) ∧
      (∀ k, List.lookup k (results.foldl step hm) = none →
        ∀ x ∈ processed ++ results, ndx x ≠ k) := by
  induction results with
  | nil =>
    intro hm processed hpos hneg
    rw [List.foldl_nil]
    rw [List.append_nil]
    exact ⟨hpos, hneg⟩
  | cons r rest ih =>
    intro hm processed hpos hneg
    rw [List.foldl_cons]
    have hinv := merge_step_invariant ndx snr hm processed r (step hm r) (hstep hm r)
      hpos hneg
    have := ih (step hm r) (processed ++ [r]) hinv.1 hinv.2
    rw [List.append_cons]
    exact this

theorem merge_msg_lists_invariant (lists : List (List Message)) :
    ∀ (hm : List (Nat × Message)) (processed : List Message),
      (∀ k v, List.lookup k hm = some v →
        v.common.ndx = k ∧ v ∈ processed ∧
          ∀ x ∈ processed, x.common.ndx = k → x.common.snr ≤ v.common.snr) →
      (∀ k, List.lookup k hm = none → ∀ x ∈ processed, x.common.ndx ≠ k) →
      (∀ k v, List.lookup k
          (lists.foldl (fun hm msgs => msgs.foldl merge_msg_step hm) hm) = some v →
        v.common.ndx = k ∧ v ∈ processed ++ lists.flatten ∧
          ∀ x ∈ processed ++ lists.flatten, x.common.ndx = k →
            x.common.snr ≤ v.common.snr) ∧
      (∀ k, List.lookup k
          (lists.foldl (fun hm msgs => msgs.foldl merge_msg_step hm) hm) = none →
        ∀ x ∈ processed ++ lists.flatten, x.common.ndx ≠ k) := by
  induction lists with
  | nil =>
    intro hm processed hpos hneg
    rw [List.foldl_nil, List.flatten_nil, List.append_nil]
    exact ⟨hpos, hneg⟩
  | cons l ls ih =>
    intro hm processed hpos hneg
    rw [List.foldl_cons]
    have hone := merge_fold_invariant (fun m : Message => m.common.ndx)
      (fun m : Message => m.common.snr) merge_msg_step
      (by
        intro hm2 r
        cases h : List.lookup r.common.ndx hm2 with
        | none => simp only [merge_msg_step, h]
        | some o => simp only [merge_msg_step, h]) l hm processed
      hpos hneg
    have := ih (l.foldl merge_msg_step hm) (processed ++ l) hone.1 hone.2
    rw [List.flatten_cons, ← List.append_assoc]
    exact this

/-- C9: in the per-worker merge of `process_buffer` and in the
orchestrator's cross-worker merge, the map keyed by sample index holds at
most one survivor per index (its `lookup`), the survivor carries that
index, comes from the candidate pool, and its SNR is greatest among all
candidates at that index. -/
theorem merge_keeps_highest_snr :
    (∀ (results : List ProcessStreamResult) (k : Nat) (v : ProcessStreamResult),
      List.lookup k (merge_worker_results results) = some v →
      v.ndx = k ∧ v ∈ results ∧ ∀ r ∈ results, r.ndx = k → r.snr ≤ v.snr) ∧
    (∀ (lists : List (List Message)) (k : Nat) (v : Message),
      List.lookup k (merge_worker_messages lists) = some v →
      v.common.ndx = k ∧ v ∈ lists.flatten ∧
        ∀ m ∈ lists.flatten, m.common.ndx = k → m.common.snr ≤ v.common.snr) := by
  constructor
  · intro results k v hkv
    have h := (merge_fold_invariant (fun r : ProcessStreamResult => r.ndx)
      (fun r : ProcessStreamResult => r.snr) merge_psr_step
      (by
        intro hm2 r
        cases h : List.lookup r.ndx hm2 with
        | none => simp only [merge_psr_step, h]
        | some o => simp only [merge_psr_step, h]) results [] []
      (fun k v h => absurd h (by simp)) (fun k _ x hx => absurd hx (by simp))).1 k v hkv
    simpa using h
  · intro lists k v hkv
    have h := (merge_msg_lists_invariant lists [] []
      (fun k v h => absurd h (by simp)) (fun k _ x hx => absurd hx (by simp))).1 k v hkv
    simpa using h

/-- Witness for `merge_keeps_highest_snr`: a single-result worker list and
a single one-message worker.  Both lookups are evaluated concretely. -/
theorem merge_keeps_highest_snr_witness :
    (⟨1, [], [], 5, [], [], 0⟩ : ProcessStreamResult) ∈
      [(⟨1, [], [], 5, [], [], 0⟩ : ProcessStreamResult)] ∧
    (⟨⟨[], [], 9, 2, [], [], true, 0⟩, .Other⟩ : Message) ∈
      [[(⟨⟨[], [], 9, 2, [], [], true, 0⟩, .Other⟩ : Message)]].flatten := by
  constructor
  · exact (merge_keeps_highest_snr.1 [⟨1, [], [], 5, [], [], 0⟩] 5 ⟨1, [], [], 5, [], [], 0⟩
      rfl).2.1
  · exact (merge_keeps_highest_snr.2 [[⟨⟨[], [], 9, 2, [], [], true, 0⟩, .Other⟩]]
      9 ⟨⟨[], [], 9, 2, [], [], true, 0⟩, .Other⟩ rfl).2.1

/-- C6 (amended): with both CPR slots populated, the position pairing in
`process_messages` runs `decode_cpr` exactly when the sample-time delta `d`
satisfies `d / 2000000 ≤ 10`, i.e. `d < 22,000,000` — not the claimed
`d ≤ 20,000,000`; beyond that reach the entity is left unchanged. -/
theorem cpr_pairing_threshold (ent : Entity) (a b : Nat × Nat × Nat) (delta : Nat)
    (he : ent.even_cpr = some a) (ho : ent.odd_cpr = some b)
    (hd : delta = if a.2.2 > b.2.2 then a.2.2 - b.2.2 else b.2.2 - a.2.2) :
    (delta / 2000000 ≤ 10 ↔ delta < 22000000) ∧
    (delta < 22000000 →
      cpr_pairing_update ent = (match decode_cpr a b with
        | some p => { ent with lat := some p.1, lon := some p.2 }
        | none => ent)) ∧
    (22000000 ≤ delta → cpr_pairing_update ent = ent) := by
  have hiff : delta / 2000000 ≤ 10 ↔ delta < 22000000 := by omega
  refine ⟨hiff, ?_, ?_⟩
  · intro hlt
    unfold cpr_pairing_update
    rw [he, ho]
    dsimp only
    rw [← hd, if_pos (hiff.mpr hlt)]
  · intro hge
    unfold cpr_pairing_update
    rw [he, ho]
    dsimp only
    rw [← hd, if_neg (by omega)]

/-- Witness for `cpr_pairing_threshold`: a pair whose stamps differ by
exactly `22,000,000` samples is not paired. -/
theorem cpr_pairing_threshold_witness :
    cpr_pairing_update { default_entity 7 with
      even_cpr := some (0, 0, 0), odd_cpr := some (0, 0, 22000000) } =
    { default_entity 7 with
      even_cpr := some (0, 0, 0), odd_cpr := some (0, 0, 22000000) } :=
  (cpr_pairing_threshold _ (0, 0, 0) (0, 0, 22000000) 22000000 rfl rfl
    (by decide)).2.2 (by decide)

/-- An `AirbornePositionMessage` with raw CPR coordinates `(0, 0)`, used to
drive `process_messages` concretely. -/
def c6_position_message (ndx : Nat) (f_flag : Bool) : Message :=
  ⟨⟨[], [], ndx, 1, [0], [1, 1], true, 0⟩,
   .AirbornePositionMessage ⟨0, 11189196, 9, 0, 0, 0⟩ f_flag false 0 0 0⟩

set_option maxHeartbeats 1000000 in
/-- C6: counterexample to the claimed `20,000,000`-sample pairing bound.
An even frame at sample index `0` and an odd frame at sample index
`20,000,001` — a delta strictly beyond the claimed bound — are still
paired: `process_messages` stores a decoded latitude and longitude,
because `20000001 / 2000000 = 10 ≤ 10`. -/
theorem process_messages_pairs_beyond_claimed_bound :
    20000001 - 0 > 20000000 ∧
    (List.lookup 11189196 (process_messages
        [(0, c6_position_message 0 false), (20000001, c6_position_message 20000001 true)]
        [] 0 (PipeManagement.new 1 1) 40 3).1).map (fun e => (e.lat, e.lon))
      = some (some 0, some 0) := by
  refine ⟨by norm_num, ?_⟩
  norm_num [process_messages, process_message_one, c6_position_message, init_entity_if_not,
    default_entity, update_entity, Entity.check_if_in_beam, Entity.push_theta_cap_avg,
    Entity.theta_avg, set_addr_to_theta3, PipeManagement.set_addr_to_theta,
    PipeManagement.get_addr_pipe_ndx, PipeManagement.new, cpr_pairing_update, decode_cpr,
    cpr_nl_function, cpr_mod_function, cpr_n_function, cpr_dlon_function, f32_rem, rat_trunc,
    floorQ, List.lookup, List.range_succ, List.findIdx?]

end Rsadsbma
